import Mathlib

/-!
Verification of the intent-to-action pipeline of the PowerBI dashboard agent
(`ai_agent/intent_parser.py`, `ai_agent/action_generator.py`, `ai_agent/agent.py`).

The Python code is embedded shallowly:

* Python/JSON values are modelled by `PyVal`; Python dicts by association
  lists (`PyDict`) with Python's lookup/update semantics (insertion order,
  update-in-place).
* Python exceptions raised by the action generator are modelled with
  `Except PyErr`; code paths that catch exceptions return plain values.
* The LLM providers are external network services; their observable behaviour
  is injected as oracle arguments (`Option String` for a call that either
  returns text or raises, `Bool` for a constructor that either succeeds or
  raises).
* `json.loads` is modelled by a small executable JSON reader (`jsonRead`);
  the regular expressions of the source are modelled by dedicated scanners
  that implement the exact matching discipline of each concrete pattern.
-/

/-- Python/JSON values (the result type of `json.loads` and the value type of
the dynamic dicts that flow through the pipeline).  Numbers are modelled as
rationals. -/
inductive PyVal where
  | null
  | bool (b : Bool)
  | num (q : Rat)
  | str (s : String)
  | arr (elems : List PyVal)
  | obj (fields : List (String × PyVal))
deriving Repr

/-- A Python dict with string keys, in insertion order. -/
abbrev PyDict := List (String × PyVal)

/-- Python `d[k]` / `d.get(k)`: first binding of the key wins (a dict has at
most one binding per key; our model keeps the same discipline via `pySet`). -/
def pyGet (d : PyDict) (k : String) : Option PyVal :=
  match d with
  | [] => none
  | (k', v) :: rest => if k' = k then some v else pyGet rest k

/-- Python `d.get(k, dflt)`. -/
def pyGetD (d : PyDict) (k : String) (dflt : PyVal) : PyVal :=
  (pyGet d k).getD dflt

/-- Python `k in d`. -/
def pyContains (d : PyDict) (k : String) : Bool :=
  (pyGet d k).isSome

/-- Python `d[k] = v`: update in place if the key exists, append otherwise. -/
def pySet (d : PyDict) (k : String) (v : PyVal) : PyDict :=
  match d with
  | [] => [(k, v)]
  | (k', v') :: rest => if k' = k then (k', v) :: rest else (k', v') :: pySet rest k v

/-- Python truthiness of a value. -/
def pyTruthy : PyVal → Bool
  | .null => false
  | .bool b => b
  | .num q => !(q == 0)
  | .str s => !(s == "")
  | .arr xs => !xs.isEmpty
  | .obj fs => !fs.isEmpty

/-- Python `a or b` (returns the first operand when truthy, else the second). -/
def pyOr (a b : PyVal) : PyVal :=
  if pyTruthy a then a else b

/-- Python `v == s` for a string literal `s` (values of other types never
compare equal to a string). -/
def pyEqStr (v : PyVal) : String → Bool
  | s => match v with
         | .str t => t == s
         | _ => false

/-- Python `v in [s1, ..., sn]` for a list of string literals. -/
def pyInStrList (v : PyVal) (l : List String) : Bool :=
  l.any (fun s => pyEqStr v s)

/-- Model of Python `str(v)` for the values that can appear here.  Only used
to feed substring tests; the exact rendering of non-string values is a model
of CPython's `str`. -/
def pyStrJ : PyVal → String
  | .null => "None"
  | .bool b => if b then "True" else "False"
  | .num q => if q.den = 1 then toString q.num else toString q
  | .str s => s
  | .arr _ => "[...]"
  | .obj _ => "{...}"

theorem pyGet_pySet_self (d : PyDict) (k : String) (v : PyVal) :
    pyGet (pySet d k v) k = some v := by
  induction d with
  | nil => simp [pySet, pyGet]
  | cons hd tl ih =>
    obtain ⟨k', v'⟩ := hd
    by_cases h : k' = k <;> simp [pySet, pyGet, h, ih]

theorem pyGet_pySet_ne (d : PyDict) (k k' : String) (v : PyVal) (h : k' ≠ k) :
    pyGet (pySet d k v) k' = pyGet d k' := by
  induction d with
  | nil => simp [pySet, pyGet, Ne.symm h]
  | cons hd tl ih =>
    obtain ⟨k₀, v₀⟩ := hd
    by_cases h0 : k₀ = k <;> by_cases h1 : k₀ = k' <;>
      simp_all [pySet, pyGet]

theorem pyContains_pySet (d : PyDict) (k k' : String) (v : PyVal) :
    pyContains (pySet d k v) k' = (k' = k || pyContains d k') := by
  by_cases h : k' = k
  · subst h; simp [pyContains, pyGet_pySet_self]
  · simp [pyContains, pyGet_pySet_ne d k k' v h, h]

/-! ### Character and string helpers (models of Python `str` methods) -/

/-- ASCII lower-casing of one character (model of `str.lower` for the ASCII
range used by the commands and keywords of the source). -/
def lowC (c : Char) : Char :=
  if 'A' ≤ c && c ≤ 'Z' then Char.ofNat (c.toNat + 32) else c

/-- ASCII upper-casing of one character. -/
def upC (c : Char) : Char :=
  if 'a' ≤ c && c ≤ 'z' then Char.ofNat (c.toNat - 32) else c

/-- Model of Python `str.lower` on a character list. -/
def lowerL (l : List Char) : List Char := l.map lowC

/-- Model of Python `str.lower` on a string. -/
def lowerStr (s : String) : String := String.mk (lowerL s.data)

/-- `lstartsWith hay needle`: does `hay` start with `needle`? -/
def lstartsWith : List Char → List Char → Bool
  | _, [] => true
  | [], _ :: _ => false
  | a :: as, b :: bs => a == b && lstartsWith as bs

/-- `hasSub hay needle`: Python `needle in hay` (contiguous substring test;
the empty needle is contained in everything, as in Python). -/
def hasSub : List Char → List Char → Bool
  | hay, needle =>
    if lstartsWith hay needle then true
    else match hay with
         | [] => false
         | _ :: rest => hasSub rest needle

/-- Python `any(kw in hay for kw in kws)`. -/
def containsAny (hay : List Char) (kws : List String) : Bool :=
  kws.any (fun k => hasSub hay k.data)

/-- Word characters of the regexes `\w` (ASCII model). -/
def isWordChar (c : Char) : Bool :=
  ('a' ≤ c && c ≤ 'z') || ('A' ≤ c && c ≤ 'Z') || ('0' ≤ c && c ≤ '9') || c == '_'

/-- Whitespace characters of the regexes `\s` and of `str.strip` (ASCII model:
space, tab, newline, carriage return, vertical tab, form feed). -/
def isSpC (c : Char) : Bool :=
  c == ' ' || c == '\t' || c == '\n' || c == '\r' || c == '\x0b' || c == '\x0c'

/-- Decimal digits (`\d`). -/
def isDigitC (c : Char) : Bool := '0' ≤ c && c ≤ '9'

/-- Model of Python `str.strip()`. -/
def stripL (l : List Char) : List Char :=
  ((l.dropWhile isSpC).reverse.dropWhile isSpC).reverse

/-- Model of Python `str.title()`: the first letter of every run of letters is
upper-cased, the rest lower-cased (ASCII model; digits and punctuation are
uncased and restart a word, as in CPython). -/
def pyTitleAux : List Char → Bool → List Char
  | [], _ => []
  | c :: rest, prevCased =>
    let cased := ('a' ≤ c && c ≤ 'z') || ('A' ≤ c && c ≤ 'Z')
    let c' := if cased && !prevCased then upC c else if cased then lowC c else c
    c' :: pyTitleAux rest cased

/-- Model of Python `str.title()` on strings. -/
def pyTitle (s : String) : String := String.mk (pyTitleAux s.data false)

/-- Model of `s.replace("_", " ")` followed by `.title()`, the title-casing
idiom the action generator applies to column names. -/
def titleize (s : String) : String := pyTitle (s.replace "_" " ")

/-! ### A small executable JSON reader (model of `json.loads`)

`json.loads` either returns a value or raises `JSONDecodeError`; every call
site of the source catches the error, so the model returns `Option PyVal`.
The reader covers the JSON fragment relevant here (objects, arrays, strings
with the basic escapes, integer/decimal numbers, literals). -/

/-- JSON insignificant whitespace. -/
def jWs (c : Char) : Bool := c == ' ' || c == '\t' || c == '\n' || c == '\r'

/-- Read a JSON string body after the opening quote; returns the decoded
characters and the input after the closing quote. -/
def jStr : Nat → List Char → Option (List Char × List Char)
  | 0, _ => none
  | _ + 1, [] => none
  | f + 1, c :: rest =>
    if c == '"' then some ([], rest)
    else if c == '\\' then
      match rest with
      | [] => none
      | e :: rest' =>
        let dec : Option Char :=
          if e == '"' then some '"'
          else if e == '\\' then some '\\'
          else if e == '/' then some '/'
          else if e == 'n' then some '\n'
          else if e == 't' then some '\t'
          else if e == 'r' then some '\r'
          else none
        match dec with
        | some d => (jStr f rest').map (fun p => (d :: p.1, p.2))
        | none => none
    else (jStr f rest).map (fun p => (c :: p.1, p.2))

/-- Read a JSON number (optional minus, digits, optional fractional part). -/
def jNum (l : List Char) : Option (Rat × List Char) :=
  let (neg, l1) := match l with
                   | '-' :: r => (true, r)
                   | _ => (false, l)
  let ds := l1.takeWhile isDigitC
  let r1 := l1.dropWhile isDigitC
  if ds.isEmpty then none
  else
    let ip : Nat := ds.foldl (fun n c => n * 10 + (c.toNat - 48)) 0
    match r1 with
    | '.' :: r2 =>
      let fs := r2.takeWhile isDigitC
      let r3 := r2.dropWhile isDigitC
      let fp : Nat := fs.foldl (fun n c => n * 10 + (c.toNat - 48)) 0
      if fs.isEmpty then none
      else
        let q : Rat := (ip : Rat) + (fp : Rat) / ((10 : Rat) ^ fs.length)
        some (if neg then -q else q, r3)
    | _ => some (if neg then -(ip : Rat) else (ip : Rat), r1)

mutual

/-- Read one JSON value. -/
def jVal : Nat → List Char → Option (PyVal × List Char)
  | 0, _ => none
  | f + 1, l =>
    match l.dropWhile jWs with
    | '{' :: r => jObj f (r.dropWhile jWs) true
    | '[' :: r => jArr f (r.dropWhile jWs) true
    | '"' :: r => (jStr (r.length + 1) r).map (fun p => (.str (String.mk p.1), p.2))
    | 't' :: 'r' :: 'u' :: 'e' :: r => some (.bool true, r)
    | 'f' :: 'a' :: 'l' :: 's' :: 'e' :: r => some (.bool false, r)
    | 'n' :: 'u' :: 'l' :: 'l' :: r => some (.null, r)
    | r => (jNum r).map (fun p => (.num p.1, p.2))

/-- Read the fields of a JSON object after `{` (whitespace already skipped);
`first` marks whether no field has been read yet. -/
def jObj : Nat → List Char → Bool → Option (PyVal × List Char)
  | 0, _, _ => none
  | _ + 1, '}' :: r, true => some (.obj [], r)
  | f + 1, l, _ =>
    match jStr (l.length + 1) (l.dropWhile jWs).tail with
    | some (k, r1) =>
      if (l.dropWhile jWs).headD ' ' == '"' then
        match r1.dropWhile jWs with
        | ':' :: r2 =>
          match jVal f r2 with
          | some (v, r3) =>
            match r3.dropWhile jWs with
            | '}' :: r4 => some (.obj [(String.mk k, v)], r4)
            | ',' :: r4 =>
              match jObj f (r4.dropWhile jWs) false with
              | some (.obj fs, r5) => some (.obj ((String.mk k, v) :: fs), r5)
              | _ => none
            | _ => none
          | none => none
        | _ => none
      else none
    | none => none

/-- Read the elements of a JSON array after `[` (whitespace already skipped);
`first` marks whether no element has been read yet. -/
def jArr : Nat → List Char → Bool → Option (PyVal × List Char)
  | 0, _, _ => none
  | _ + 1, ']' :: r, true => some (.arr [], r)
  | f + 1, l, _ =>
    match jVal f l with
    | some (v, r1) =>
      match r1.dropWhile jWs with
      | ']' :: r2 => some (.arr [v], r2)
      | ',' :: r2 =>
        match jArr f r2 false with
        | some (.arr vs, r3) => some (.arr (v :: vs), r3)
        | _ => none
      | _ => none
    | none => none

end

/-- Model of `json.loads`: read one value and require that only whitespace
remains. -/
def jsonRead (l : List Char) : Option PyVal :=
  match jVal (2 * l.length + 2) l with
  | some (v, rest) => if (rest.dropWhile jWs).isEmpty then some v else none
  | none => none

/-! ### `IntentParser._extract_json_strict` (intent_parser.py 154-205)

Strategy 1 scans the raw text with four regexes in order; each is modelled by
a dedicated scanner implementing the deterministic matching discipline of
that concrete pattern (the patterns contain no ambiguous backtracking: the
character classes of adjacent pieces are disjoint, so greedy/lazy runs are
maximal/minimal munches).  `re.findall` semantics: try a match at every
position from left to right, continue after the end of a successful match. -/

/-- Negated brace class `[^{}]`. -/
def nbC (c : Char) : Bool := !(c == '{' || c == '}')

/-- Matching loop for pattern 1 `\{[^{}]*(?:\{[^{}]*\}[^{}]*)*\}` after the
initial `\{[^{}]*`; `acc` counts the characters consumed so far; returns the
total length of the match. -/
def p1Loop : Nat → List Char → Nat → Option Nat
  | 0, _, _ => none
  | f + 1, l, acc =>
    match l with
    | [] => none
    | c :: rest =>
      if c == '}' then some (acc + 1)
      else if c == '{' then
        let s1 := rest.takeWhile nbC
        let r1 := rest.dropWhile nbC
        match r1 with
        | '}' :: r2 =>
          let s2 := r2.takeWhile nbC
          p1Loop f (r2.dropWhile nbC) (acc + 1 + s1.length + 1 + s2.length)
        | _ => none
      else none

/-- Try pattern 1 at the head of the input; returns the match length. -/
def tryP1 (l : List Char) : Option Nat :=
  match l with
  | c :: rest =>
    if c == '{' then
      let s := rest.takeWhile nbC
      p1Loop (l.length + 1) (rest.dropWhile nbC) (1 + s.length)
    else none
  | [] => none

/-- Try pattern 2 `\{.*?\}` (DOTALL) at the head of the input: an opening
brace, then lazily up to the first closing brace. -/
def tryP2 (l : List Char) : Option Nat :=
  match l with
  | c :: rest =>
    if c == '{' then
      match rest.findIdx? (fun d => d == '}') with
      | some k => some (k + 2)
      | none => none
    else none
  | [] => none

/-- Lazy scan of `.*?\}` under the constraint that the closing brace is
followed by `\s*` and three backticks; returns the number of characters up to
and including that closing brace. -/
def lazyClose : Nat → List Char → Nat → Option Nat
  | 0, _, _ => none
  | f + 1, l, idx =>
    match l with
    | [] => none
    | c :: rest =>
      if c == '}' && lstartsWith (rest.dropWhile isSpC) ['`', '`', '`'] then some (idx + 1)
      else lazyClose f rest (idx + 1)

/-- Try pattern 3 ```` ```json\s*(\{.*?\})\s*``` ```` at the head of the
input; returns the captured group and the total match length (`re.findall`
returns the group when the pattern has one). -/
def tryP3 (l : List Char) : Option (List Char × Nat) :=
  if lstartsWith l ['`', '`', '`', 'j', 's', 'o', 'n'] then
    let r0 := l.drop 7
    let ws := r0.takeWhile isSpC
    let r1 := r0.dropWhile isSpC
    match r1 with
    | c :: r2 =>
      if c == '{' then
        match lazyClose (r2.length + 1) r2 0 with
        | some n =>
          let grp := '{' :: r2.take n
          let ws2 := (r2.drop n).takeWhile isSpC
          some (grp, 7 + ws.length + 1 + n + ws2.length + 3)
        | none => none
      else none
    | [] => none
  else none

/-- Try pattern 4 ```` ```\s*(\{.*?\})\s*``` ```` at the head of the input. -/
def tryP4 (l : List Char) : Option (List Char × Nat) :=
  if lstartsWith l ['`', '`', '`'] then
    let r0 := l.drop 3
    let ws := r0.takeWhile isSpC
    let r1 := r0.dropWhile isSpC
    match r1 with
    | c :: r2 =>
      if c == '{' then
        match lazyClose (r2.length + 1) r2 0 with
        | some n =>
          let grp := '{' :: r2.take n
          let ws2 := (r2.drop n).takeWhile isSpC
          some (grp, 3 + ws.length + 1 + n + ws2.length + 3)
        | none => none
      else none
    | [] => none
  else none

/-- `re.findall` driver for a head-matcher returning a match length. -/
def findAllLen (try1 : List Char → Option Nat) : Nat → List Char → List (List Char)
  | 0, _ => []
  | _ + 1, [] => []
  | f + 1, c :: rest =>
    match try1 (c :: rest) with
    | some n => (c :: rest).take n :: findAllLen try1 f ((c :: rest).drop n)
    | none => findAllLen try1 f rest

/-- `re.findall` driver for a head-matcher returning a captured group and a
match length. -/
def findAllGrp (try1 : List Char → Option (List Char × Nat)) :
    Nat → List Char → List (List Char)
  | 0, _ => []
  | _ + 1, [] => []
  | f + 1, c :: rest =>
    match try1 (c :: rest) with
    | some (g, n) => g :: findAllGrp try1 f ((c :: rest).drop n)
    | none => findAllGrp try1 f rest

/-- All candidate JSON strings produced by the four patterns, in pattern
order (intent_parser.py 160-165). -/
def jsonCandidates (l : List Char) : List (List Char) :=
  findAllLen tryP1 l.length l ++ findAllLen tryP2 l.length l ++
  findAllGrp tryP3 l.length l ++ findAllGrp tryP4 l.length l

/-- Strategy 1 (intent_parser.py 167-176): decode each candidate in order and
accept the first decoded dict that contains the key `action_type`. -/
def strategy1 (l : List Char) : Option PyDict :=
  (jsonCandidates l).findSome? (fun cand =>
    match jsonRead cand with
    | some (.obj fs) => if pyContains fs "action_type" then some fs else none
    | _ => none)

/-- `re.sub(r'```json\s*', '', _)` (intent_parser.py 181). -/
def subFenceJson : Nat → List Char → List Char
  | 0, l => l
  | _ + 1, [] => []
  | f + 1, c :: rest =>
    if lstartsWith (c :: rest) ['`', '`', '`', 'j', 's', 'o', 'n'] then
      subFenceJson f (((c :: rest).drop 7).dropWhile isSpC)
    else c :: subFenceJson f rest

/-- `re.sub(r'```\s*', '', _)` (intent_parser.py 182). -/
def subFence3 : Nat → List Char → List Char
  | 0, l => l
  | _ + 1, [] => []
  | f + 1, c :: rest =>
    if lstartsWith (c :: rest) ['`', '`', '`'] then
      subFence3 f (((c :: rest).drop 3).dropWhile isSpC)
    else c :: subFence3 f rest

/-- Strategy 2 (intent_parser.py 178-197): strip markdown fences, take the
substring from the first `{` to the last `}`, and accept any decoded dict. -/
def firstIdxOf (t : Char) : List Char → Option Nat
  | [] => none
  | c :: rest => if c == t then some 0 else (firstIdxOf t rest).map (· + 1)

def strategy2 (l : List Char) : Option PyDict :=
  let c0 := stripL l
  let c1 := subFenceJson c0.length c0
  let c2 := subFence3 c1.length c1
  let cleaned := stripL c2
  match firstIdxOf '{' cleaned with
  | none => none
  | some s =>
    match firstIdxOf '}' cleaned.reverse with
    | none => none
    | some e' =>
      let e := cleaned.length - 1 - e'
      if s < e then
        match jsonRead ((cleaned.drop s).take (e + 1 - s)) with
        | some (.obj fs) => some fs
        | _ => none
      else none

/-- The sentinel intent of strategy 3 (intent_parser.py 200-205). -/
def unknownSentinel : PyDict :=
  [("action_type", .str "unknown"),
   ("target_component", .null),
   ("parameters", .obj []),
   ("explanation", .str "Could not parse JSON from response. Please try rephrasing your command.")]

/-- `IntentParser._extract_json_strict` (intent_parser.py 154-205). -/
def extractJsonStrict (text : String) : PyDict :=
  match strategy1 text.data with
  | some d => d
  | none =>
    match strategy2 text.data with
    | some d => d
    | none => unknownSentinel

/-! ### `IntentParser._validate_action` (intent_parser.py 207-231) -/

/-- The closed 11-element action vocabulary (intent_parser.py 223-226). -/
def validActions : List String :=
  ["generate_dashboard", "add_chart", "modify_chart", "remove_chart",
   "explain_chart", "answer_question", "filter_data", "transform_data",
   "update_kpi", "rename_component", "unknown"]

/-- The explanation written when the action type is coerced
(`f"Unknown action type. Available: {', '.join(valid_actions)}"`). -/
def invalidActionMsg : String :=
  "Unknown action type. Available: " ++ String.intercalate ", " validActions

/-- `if key not in action: action[key] = default` (one filling step of the
validator). -/
def fillDefault (d : PyDict) (k : String) (v : PyVal) : PyDict :=
  if pyContains d k then d else pySet d k v

/-- The four filling steps of `_validate_action` (intent_parser.py
209-220). -/
def filledAction (action : PyDict) : PyDict :=
  fillDefault
    (fillDefault
      (fillDefault (fillDefault action "action_type" (.str "unknown"))
        "target_component" .null)
      "parameters" (.obj []))
    "explanation" (.str "Processing your request.")

/-- `IntentParser._validate_action`: fill the four required fields with
defaults when absent, then coerce `action_type` into the vocabulary
(intent_parser.py 207-231). -/
def validateAction (action : PyDict) : PyDict :=
  let a4 := filledAction action
  if pyInStrList (pyGetD a4 "action_type" .null) validActions then a4
  else pySet (pySet a4 "action_type" (.str "unknown")) "explanation" (.str invalidActionMsg)

/-! ### `IntentParser._rule_based_parse` (intent_parser.py 233-379) -/

/-- One column descriptor of the Column Catalog (`name`/`type` entries of the
metadata dicts; `ctype` embeds the `type` key). -/
structure Column where
  name : String
  ctype : String
deriving Repr, DecidableEq

/-- Python truthiness of the `x_axis`/`y_axis` variables of the rule-based
matcher: `None` and the empty string are falsy. -/
def truthyS : Option String → Bool
  | none => false
  | some s => !(s == "")

/-- intent_parser.py 243. -/
def vizKeywords : List String :=
  ["chart", "graph", "visualization", "visualize", "plot", "show", "display",
   "create", "add", "make", "generate"]

/-- intent_parser.py 244-252 (dict iteration order = insertion order). -/
def chartTypeKeywords : List (String × String) :=
  [("bar", "bar_chart"), ("line", "line_chart"), ("pie", "pie_chart"),
   ("kpi", "kpi"), ("metric", "kpi"), ("total", "kpi"), ("table", "table")]

/-- intent_parser.py 258-263: first chart-type keyword present in the
command, defaulting to `bar_chart`. -/
def pickChartType (cmdL : List Char) : String :=
  ((chartTypeKeywords.find? (fun p => hasSub cmdL p.1.data)).map Prod.snd).getD "bar_chart"

/-- Try the regex `(\w+)\s+by\s+(\w+)` at the head of the input (the adjacent
pieces have disjoint character classes, so matching is deterministic). -/
def tryByAt (l : List Char) : Option (List Char × List Char) :=
  let w1 := l.takeWhile isWordChar
  let r1 := l.dropWhile isWordChar
  if w1.isEmpty then none
  else
    let sp := r1.takeWhile isSpC
    let r2 := r1.dropWhile isSpC
    if sp.isEmpty then none
    else
      match r2 with
      | 'b' :: 'y' :: r3 =>
        let sp2 := r3.takeWhile isSpC
        let r4 := r3.dropWhile isSpC
        if sp2.isEmpty then none
        else
          let w2 := r4.takeWhile isWordChar
          if w2.isEmpty then none else some (w1, w2)
      | _ => none

/-- `re.search(r'(\w+)\s+by\s+(\w+)', _)` (intent_parser.py 276): leftmost
match, returning the two groups. -/
def findBy : List Char → Option (List Char × List Char)
  | [] => none
  | c :: rest =>
    match tryByAt (c :: rest) with
    | some g => some g
    | none => findBy rest

/-- Pattern 1 (intent_parser.py 277-288): bind the axes from the
`<metric> by <category>` groups via substring containment in either
direction; later matching columns overwrite earlier ones. -/
def assignFromByMatch (cols : List Column) (metric category : List Char) :
    Option String × Option String :=
  cols.foldl
    (fun xy col =>
      let nameL := lowerL col.name.data
      let y' := if (hasSub nameL metric || hasSub metric nameL) && col.ctype == "numeric"
                then some col.name else xy.2
      let x' := if (hasSub nameL category || hasSub category nameL) &&
                   (col.ctype == "string" || col.ctype == "date")
                then some col.name else xy.1
      (x', y'))
    (none, none)

/-- Pattern 2 (intent_parser.py 290-300): direct presence of the cleaned
column name in the command; first numeric match fills the y axis, first
string/date match fills the x axis. -/
def assignDirect (cols : List Column) (cmdL : List Char) (x0 y0 : Option String) :
    Option String × Option String :=
  cols.foldl
    (fun xy col =>
      let nameL := lowerL col.name.data
      let clean := nameL.map (fun c => if c == '_' || c == '-' then ' ' else c)
      if hasSub cmdL nameL || hasSub cmdL clean then
        if col.ctype == "numeric" && !truthyS xy.2 then (xy.1, some col.name)
        else if (col.ctype == "string" || col.ctype == "date") && !truthyS xy.1 then
          (some col.name, xy.2)
        else xy
      else xy)
    (x0, y0)

/-- intent_parser.py 303. -/
def metricKeywords : List String :=
  ["revenue", "sales", "quantity", "amount", "price", "cost", "profit",
   "total", "sum", "count"]

/-- intent_parser.py 312. -/
def categoryKeywords : List String :=
  ["category", "region", "product", "date", "time", "month", "year", "day"]

/-- Pattern 3 (intent_parser.py 302-309): generic metric keywords. -/
def assignMetricKw (cols : List Column) (cmdL : List Char) (y0 : Option String) :
    Option String :=
  metricKeywords.foldl
    (fun y kw =>
      if hasSub cmdL kw.data && !truthyS y then
        match cols.find? (fun col =>
            hasSub (lowerL col.name.data) kw.data && col.ctype == "numeric") with
        | some col => some col.name
        | none => y
      else y)
    y0

/-- Pattern 4 (intent_parser.py 311-318): generic category keywords. -/
def assignCategoryKw (cols : List Column) (cmdL : List Char) (x0 : Option String) :
    Option String :=
  categoryKeywords.foldl
    (fun x kw =>
      if hasSub cmdL kw.data && !truthyS x then
        match cols.find? (fun col =>
            hasSub (lowerL col.name.data) kw.data &&
            (col.ctype == "string" || col.ctype == "date")) with
        | some col => some col.name
        | none => x
      else x)
    x0

/-- `numeric_cols` (intent_parser.py 271). -/
def numericColsOf (cols : List Column) : List String :=
  (cols.filter (fun c => c.ctype == "numeric")).map Column.name

/-- `string_cols` (intent_parser.py 272). -/
def stringColsOf (cols : List Column) : List String :=
  (cols.filter (fun c => c.ctype == "string")).map Column.name

/-- `date_cols` (intent_parser.py 273). -/
def dateColsOf (cols : List Column) : List String :=
  (cols.filter (fun c => c.ctype == "date")).map Column.name

/-- Patterns 1-4 of the axis binding (intent_parser.py 275-318), composed. -/
def vizAxes (cmdL : List Char) (cols : List Column) : Option String × Option String :=
  let xy0 : Option String × Option String :=
    match findBy cmdL with
    | some (metric, category) => assignFromByMatch cols metric category
    | none => (none, none)
  let xy1 := if !truthyS xy0.1 || !truthyS xy0.2 then assignDirect cols cmdL xy0.1 xy0.2
             else xy0
  (assignCategoryKw cols cmdL xy1.1, assignMetricKw cols cmdL xy1.2)

/-- The x-axis default (intent_parser.py 321-325): first date column, else
first string column. -/
def defaultX (cols : List Column) (x2 : Option String) : Option String :=
  if !truthyS x2 then
    if !(dateColsOf cols).isEmpty then some ((dateColsOf cols).headD "")
    else if !(stringColsOf cols).isEmpty then some ((stringColsOf cols).headD "")
    else x2
  else x2

/-- The y-axis default (intent_parser.py 326-327): first numeric column. -/
def defaultY (cols : List Column) (y2 : Option String) : Option String :=
  if !truthyS y2 && !(numericColsOf cols).isEmpty then some ((numericColsOf cols).headD "")
  else y2

/-- The parameter dict of the visualization branch (intent_parser.py
329-333): the axes are added only when truthy. -/
def vizParams (cmdL : List Char) (cols : List Column) : PyDict :=
  let xy := vizAxes cmdL cols
  let x3 := defaultX cols xy.1
  let y3 := defaultY cols xy.2
  let params0 : PyDict := [("chart_type", .str (pickChartType cmdL))]
  let params1 := if truthyS x3 then pySet params0 "x_axis" (.str (x3.getD "")) else params0
  if truthyS y3 then pySet params1 "y_axis" (.str (y3.getD "")) else params1

/-- The visualization branch of the rule-based matcher
(intent_parser.py 257-340). -/
def vizBranch (cmdL : List Char) (cols : List Column) : PyDict :=
  [("action_type", .str "add_chart"), ("target_component", .null),
   ("parameters", .obj (vizParams cmdL cols)),
   ("explanation", .str ("Adding " ++ pickChartType cmdL ++ " to dashboard"))]

/-- `IntentParser._rule_based_parse` (intent_parser.py 233-379).  The
`dashboard_state` argument of the source is unused by the function body and
is omitted. -/
def ruleBasedParse (command : String) (cols : List Column) : PyDict :=
  let cmdL := lowerL command.data
  if containsAny cmdL vizKeywords then vizBranch cmdL cols
  else if containsAny cmdL ["remove", "delete", "drop"] then
    [("action_type", .str "remove_chart"), ("target_component", .null),
     ("parameters", .obj []), ("explanation", .str "Removing component from dashboard")]
  else if hasSub cmdL "filter".data || hasSub cmdL "show only".data ||
          hasSub cmdL "top".data then
    [("action_type", .str "filter_data"), ("target_component", .null),
     ("parameters", .obj []), ("explanation", .str "Applying filter to data")]
  else if containsAny cmdL ["change", "modify", "update", "switch"] then
    [("action_type", .str "modify_chart"), ("target_component", .null),
     ("parameters", .obj []), ("explanation", .str "Modifying chart as requested")]
  else if hasSub cmdL "rename".data then
    [("action_type", .str "rename_component"), ("target_component", .null),
     ("parameters", .obj []), ("explanation", .str "Renaming component")]
  else
    [("action_type", .str "unknown"), ("target_component", .null),
     ("parameters", .obj []),
     ("explanation", .str "I didn't understand that command. Please try rephrasing or be more specific.")]

/-! ### `IntentParser.__init__` (intent_parser.py 26-39)

The provider clients are external; what `__init__` observes about them is
injected: `geminiAvailable`/`hfAvailable` model the import guards
(`GEMINI_AVAILABLE`/`HF_AVAILABLE`), `geminiInitOk` models whether
`GeminiClient()` returns without raising.  `OllamaClient.__init__` only
copies two settings attributes and cannot raise; `HuggingFaceClient.__init__`
catches its own initialization failure internally (huggingface_client.py
21-37) and records a dead pipeline instead of raising, which `hfPipelineOk`
models. -/

/-- The client stored in `self.llm` after `IntentParser.__init__`. -/
inductive LLMClient where
  | ollamaClient
  | geminiClient
  | huggingfaceClient (pipelineOk : Bool)
deriving Repr, DecidableEq

/-- Outcome of `IntentParser.__init__`: the selected client and whether a
fallback warning was printed. -/
structure InitOutcome where
  client : LLMClient
  warned : Bool
deriving Repr, DecidableEq

/-- `IntentParser.__init__` (intent_parser.py 26-39). -/
def intentParserInit (provider : String) (geminiAvailable hfAvailable : Bool)
    (geminiInitOk hfPipelineOk : Bool) : InitOutcome :=
  if provider == "gemini" && geminiAvailable then
    if geminiInitOk then ⟨.geminiClient, false⟩ else ⟨.ollamaClient, true⟩
  else if provider == "ollama" then ⟨.ollamaClient, false⟩
  else if provider == "huggingface" && hfAvailable then
    ⟨.huggingfaceClient hfPipelineOk, false⟩
  else ⟨.ollamaClient, true⟩

/-! ### `IntentParser.parse_intent` (intent_parser.py 41-84)

The prompt and context construction (`_build_context`, `_create_prompt`,
`_get_system_prompt`) only feed the LLM call; the call's observable outcome
is the oracle `llmResponse` (`some text` for a returned response, `none` for
a raised provider error).  `_extract_json_strict` and `_validate_action`
never raise, so the only exception reaching the `except` that activates the
rule-based fallback is a failing `self.llm.generate`. -/

/-- `IntentParser.parse_intent`: LLM path (extract, validate, record the user
command) or rule-based fallback when the provider raises. -/
def parseIntent (userCommand : String) (cols : List Column)
    (llmResponse : Option String) : PyDict :=
  match llmResponse with
  | some response =>
    pySet (validateAction (extractJsonStrict response)) "user_command" (.str userCommand)
  | none => ruleBasedParse userCommand cols

/-! ### Data model of the action generator (action_generator.py)

Dashboards and their components are produced by the system itself, so they
are embedded with their invariant shape (a component dict always carries
`id`/`type`/`title`).  Dataset rows are mappings from column names to
scalars.  Intent parameter bags come from untrusted LLM output and stay
dynamically typed (`PyVal`); Python exceptions raised on malformed bags are
modelled with `Except PyErr`. -/

/-- Python exceptions that the action generator can raise on malformed
dynamic values. -/
inductive PyErr where
  | attributeError
  | typeError
  | keyError
deriving Repr, DecidableEq

/-- A scalar cell of a dataset row. -/
inductive Cell where
  | num (q : Rat)
  | str (s : String)
deriving Repr, DecidableEq

/-- A dataset row: a mapping from column names to scalars. -/
abbrev Row := List (String × Cell)

/-- One dashboard component (the fields of the component dicts the handlers
read). -/
structure Component where
  id : String
  ctype : String
  title : String
deriving Repr, DecidableEq

/-- The `dashboard_state` dict: its `components` list and the private
`_dataset_data` key the orchestrator may insert (`none` models an absent
key). -/
structure Dashboard where
  components : List Component
  datasetData : Option (List Row)
deriving Repr, DecidableEq

/-- `ActionGenerator._categorize_columns` (action_generator.py 93-109). -/
structure ColInfo where
  numeric : List String
  string : List String
  date : List String
  boolean : List String
deriving Repr, DecidableEq

/-- `ActionGenerator._categorize_columns`: partition the catalog by type;
unrecognized types are dropped. -/
def categorizeColumns (cols : List Column) : ColInfo :=
  cols.foldl
    (fun r c =>
      if c.ctype == "numeric" then { r with numeric := r.numeric ++ [c.name] }
      else if c.ctype == "string" then { r with string := r.string ++ [c.name] }
      else if c.ctype == "date" then { r with date := r.date ++ [c.name] }
      else if c.ctype == "boolean" then { r with boolean := r.boolean ++ [c.name] }
      else r)
    ⟨[], [], [], []⟩

/-- `v.get(...)` on a dynamic value: only dicts have `get`
(`AttributeError` otherwise). -/
def asDict : PyVal → Except PyErr PyDict
  | .obj fs => .ok fs
  | _ => .error .attributeError

/-- Python `k in v` for a string key on a dynamic value. -/
def pyHasKey : PyVal → String → Except PyErr Bool
  | .obj fs, k => .ok (pyContains fs k)
  | .arr xs, k => .ok (xs.any (fun v => pyEqStr v k))
  | .str s, k => .ok (hasSub s.data k.data)
  | _, _ => .error .typeError

/-- Python `v[k]` for a string key on a dynamic value. -/
def pyIndex : PyVal → String → Except PyErr PyVal
  | .obj fs, k =>
    match pyGet fs k with
    | some v => .ok v
    | none => .error .keyError
  | _, _ => .error .typeError

/-- Python `for x in v`: the elements of an iterable value. -/
def pyIterElems : PyVal → Except PyErr (List PyVal)
  | .arr xs => .ok xs
  | .str s => .ok (s.data.map (fun c => .str (String.mk [c])))
  | .obj fs => .ok (fs.map (fun p => .str p.1))
  | _ => .error .typeError

/-- `v.replace('_', ' ').title()` on a dynamic value: only strings have
`replace`. -/
def pyTitleOf : PyVal → Except PyErr String
  | .str s => .ok (titleize s)
  | _ => .error .attributeError

/-! ### `ActionGenerator._generate_add_chart` (action_generator.py 111-195) -/

/-- `_generate_add_chart`: resolve axes (catalog defaults), validate by chart
type, and build the new component. -/
def generateAddChart (dash : Dashboard) (params : PyVal) (colInfo : ColInfo)
    (intent : PyDict) (uuid : Nat → String) : Except PyErr PyDict := do
  let p ← asDict params
  let chartType := pyGetD p "chart_type" (.str "bar_chart")
  let x0 := pyGetD p "x_axis" .null
  let y0 := pyGetD p "y_axis" .null
  let x1 := if !pyTruthy x0 && !colInfo.string.isEmpty then .str (colInfo.string.headD "")
            else x0
  let y1 := if !pyTruthy y0 && !colInfo.numeric.isEmpty then .str (colInfo.numeric.headD "")
            else y0
  if pyInStrList chartType ["bar_chart", "line_chart"] &&
      (!pyTruthy x1 || !pyTruthy y1) then
    .ok [("success", .bool false),
         ("error", .str "Need both X-axis (categorical) and Y-axis (numeric) columns"),
         ("explanation", .str "Cannot create chart: missing required columns")]
  else if pyEqStr chartType "pie_chart" && (!pyTruthy x1 || !pyTruthy y1) &&
      (colInfo.string.isEmpty || colInfo.numeric.isEmpty) then
    .ok [("success", .bool false),
         ("error", .str "Pie chart requires categorical and numeric columns"),
         ("explanation", .str "Cannot create pie chart: insufficient columns")]
  else do
    let pieFill := pyEqStr chartType "pie_chart" && (!pyTruthy x1 || !pyTruthy y1)
    let x2 := if pieFill then .str (colInfo.string.headD "") else x1
    let y2 := if pieFill then .str (colInfo.numeric.headD "") else y1
    let title0 := pyGetD p "title" .null
    let titleV : PyVal ←
      if pyTruthy title0 then pure title0
      else if pyTruthy x2 && pyTruthy y2 then do
        let ys ← pyTitleOf y2
        let xs ← pyTitleOf x2
        pure (.str (ys ++ " by " ++ xs))
      else do
        let cs ← pyTitleOf chartType
        pure (.str ("New " ++ cs))
    let comp : PyVal := .obj
      [("id", .str (uuid 0)), ("type", chartType), ("title", titleV),
       ("config", .obj [("x_axis", x2), ("y_axis", y2),
                        ("aggregation", pyGetD p "aggregation" (.str "sum")),
                        ("data", .arr [])]),
       ("position", .obj [("row", .num (dash.components.length : Rat)),
                          ("col", .num 0), ("width", .num 2), ("height", .num 2)])]
    .ok [("success", .bool true), ("action", .str "add_component"), ("component", comp),
         ("explanation", pyGetD intent "explanation"
            (.str ("Added " ++ pyStrJ chartType ++ " to dashboard")))]

/-! ### `ActionGenerator._generate_modify_chart` (action_generator.py 197-257) -/

/-- `_generate_modify_chart`: target resolution (explicit id, first chart,
first component, else failure) and partial updates. -/
def generateModifyChart (dash : Dashboard) (params : PyVal) (intent : PyDict) :
    Except PyErr PyDict := do
  let target0 := pyGetD intent "target_component" .null
  let target : Option PyVal :=
    if pyTruthy target0 then some target0
    else
      let chartComps := dash.components.filter
        (fun c => c.ctype == "bar_chart" || c.ctype == "line_chart" || c.ctype == "pie_chart")
      match chartComps with
      | c :: _ => some (.str c.id)
      | [] =>
        match dash.components with
        | c :: _ => some (.str c.id)
        | [] => none
  match target with
  | none =>
    .ok [("success", .bool false), ("error", .str "No component to modify"),
         ("explanation", .str "No components found in dashboard")]
  | some targetId => do
    let hasCt ← pyHasKey params "chart_type"
    let hasTy ← pyHasKey params "type"
    let typeUpd : Option PyVal ←
      if hasCt || hasTy then do
        let p ← asDict params
        let newType := pyOr (pyGetD p "chart_type" .null) (pyGetD p "type" .null)
        if pyInStrList newType ["bar_chart", "line_chart", "pie_chart", "scatter_chart"] then
          pure (some newType)
        else pure none
      else pure none
    let u0 : PyDict := match typeUpd with
                       | some t => [("type", t)]
                       | none => []
    let hasTitle ← pyHasKey params "title"
    let u1 : PyDict ←
      if hasTitle then do
        let t ← pyIndex params "title"
        pure (pySet u0 "title" t)
      else pure u0
    let hasX ← pyHasKey params "x_axis"
    let hasY ← pyHasKey params "y_axis"
    let u2 : PyDict ←
      if hasX || hasY then do
        let c0 : PyDict := []
        let c1 : PyDict ←
          if hasX then do
            let v ← pyIndex params "x_axis"
            pure (pySet c0 "x_axis" v)
          else pure c0
        let c2 : PyDict ←
          if hasY then do
            let v ← pyIndex params "y_axis"
            pure (pySet c1 "y_axis" v)
          else pure c1
        pure (pySet u1 "config" (.obj c2))
      else pure u1
    if u2.isEmpty then
      .ok [("success", .bool false), ("error", .str "No valid updates specified"),
           ("explanation", .str "Please specify what to modify (type, title, axes, etc.)")]
    else
      .ok [("success", .bool true), ("action", .str "update_component"),
           ("component_id", targetId), ("updates", .obj u2),
           ("explanation", pyGetD intent "explanation" (.str "Modified chart"))]

/-! ### `ActionGenerator._generate_remove_chart` (action_generator.py 259-285) -/

/-- `_generate_remove_chart`: explicit target id, else last component, else
failure.  Pure: the input dashboard is not modified. -/
def generateRemoveChart (dash : Dashboard) (intent : PyDict) : PyDict :=
  let target0 := pyGetD intent "target_component" .null
  if pyTruthy target0 then
    [("success", .bool true), ("action", .str "remove_component"),
     ("component_id", target0),
     ("explanation", pyGetD intent "explanation" (.str "Removed component"))]
  else
    match dash.components.getLast? with
    | some comp =>
      [("success", .bool true), ("action", .str "remove_component"),
       ("component_id", .str comp.id),
       ("explanation", pyGetD intent "explanation" (.str "Removed component"))]
    | none =>
      [("success", .bool false), ("error", .str "No component to remove"),
       ("explanation", .str "No components found in dashboard")]

/-! ### `ActionGenerator._generate_filter` (action_generator.py 287-316) -/

/-- Try the regex `top\s+(\d+)` at the head of the input. -/
def tryTopAt (l : List Char) : Option Nat :=
  match l with
  | 't' :: 'o' :: 'p' :: r =>
    let sp := r.takeWhile isSpC
    let r1 := r.dropWhile isSpC
    if sp.isEmpty then none
    else
      let ds := r1.takeWhile isDigitC
      if ds.isEmpty then none
      else some (ds.foldl (fun n c => n * 10 + (c.toNat - 48)) 0)
  | _ => none

/-- `re.search(r'top\s+(\d+)', _)`: leftmost match, returning the integer
group. -/
def findTopN : List Char → Option Nat
  | [] => none
  | c :: rest =>
    match tryTopAt (c :: rest) with
    | some n => some n
    | none => findTopN rest

/-- `_generate_filter`: build the filter descriptor, overriding `limit` with
a parsed `top N` from the explanation; always succeeds. -/
def generateFilter (params : PyVal) (intent : PyDict) : Except PyErr PyDict := do
  let p ← asDict params
  let explanationJ := pyGetD intent "explanation" (.str "")
  let eLow : String ←
    match explanationJ with
    | .str s => pure (lowerStr s)
    | _ => .error .attributeError
  let base : PyDict :=
    [("column", pyGetD p "column" .null),
     ("operator", pyGetD p "operator" (.str "eq")),
     ("value", pyGetD p "value" .null),
     ("limit", pyGetD p "limit" .null),
     ("sort_by", pyGetD p "sort_by" .null),
     ("order", pyGetD p "order" (.str "desc"))]
  let filterD := match findTopN eLow.data with
                 | some n => pySet base "limit" (.num (n : Rat))
                 | none => base
  .ok [("success", .bool true), ("action", .str "apply_filter"),
       ("filter", .obj filterD),
       ("explanation", pyGetD intent "explanation" (.str "Applied filter to data"))]

/-! ### `ActionGenerator._generate_transform` (action_generator.py 318-331) -/

/-- `_generate_transform`: passthrough of the parameter bag; always
succeeds. -/
def generateTransform (params : PyVal) (intent : PyDict) : PyDict :=
  [("success", .bool true), ("action", .str "apply_transformation"),
   ("transformation", params),
   ("explanation", pyGetD intent "explanation" (.str "Applied transformation to data"))]

/-! ### `ActionGenerator._generate_update_kpi` (action_generator.py 333-367) -/

/-- `_generate_update_kpi`: explicit target id, else first KPI component,
else failure; `value`/`title` updates. -/
def generateUpdateKpi (dash : Dashboard) (params : PyVal) (intent : PyDict) :
    Except PyErr PyDict := do
  let target0 := pyGetD intent "target_component" .null
  let target : Option PyVal :=
    if pyTruthy target0 then some target0
    else
      match dash.components.filter (fun c => c.ctype == "kpi") with
      | c :: _ => some (.str c.id)
      | [] => none
  match target with
  | none =>
    .ok [("success", .bool false), ("error", .str "No KPI component found"),
         ("explanation", .str "No KPI cards in dashboard to update")]
  | some targetId => do
    let hasValue ← pyHasKey params "value"
    let u0 : PyDict ←
      if hasValue then do
        let v ← pyIndex params "value"
        pure [("config", .obj [("value", v)])]
      else pure []
    let hasTitle ← pyHasKey params "title"
    let u1 : PyDict ←
      if hasTitle then do
        let t ← pyIndex params "title"
        pure (pySet u0 "title" t)
      else pure u0
    .ok [("success", .bool true), ("action", .str "update_component"),
         ("component_id", targetId), ("updates", .obj u1),
         ("explanation", pyGetD intent "explanation" (.str "Updated KPI"))]

/-! ### `ActionGenerator._generate_rename_component` (action_generator.py 369-403) -/

/-- `_generate_rename_component`: requires a truthy `title`/`new_title`
parameter; explicit target id, else first component, else failure. -/
def generateRenameComponent (dash : Dashboard) (params : PyVal) (intent : PyDict) :
    Except PyErr PyDict := do
  let p ← asDict params
  let newTitle := pyOr (pyGetD p "title" .null) (pyGetD p "new_title" .null)
  if !pyTruthy newTitle then
    .ok [("success", .bool false), ("error", .str "No new title specified"),
         ("explanation", .str "Please specify the new title for the component")]
  else
    let target0 := pyGetD intent "target_component" .null
    let target : Option PyVal :=
      if pyTruthy target0 then some target0
      else
        match dash.components with
        | c :: _ => some (.str c.id)
        | [] => none
    match target with
    | none =>
      .ok [("success", .bool false), ("error", .str "No component to rename"),
           ("explanation", .str "No components found in dashboard")]
    | some targetId =>
      .ok [("success", .bool true), ("action", .str "update_component"),
           ("component_id", targetId), ("updates", .obj [("title", newTitle)]),
           ("explanation", pyGetD intent "explanation"
              (.str ("Renamed component to '" ++ pyStrJ newTitle ++ "'")))]

/-! ### `ActionGenerator._generate_full_dashboard` (action_generator.py 405-561)

Fresh component identifiers (`str(uuid.uuid4())`) are modelled by an injected
supply `uuid : Nat → String`, applied at consecutive indices in call order. -/

/-- The `type_map` of the widget-spec branch (action_generator.py 442-448). -/
def typeMap : List (String × String) :=
  [("bar_chart", "bar_chart"), ("line_chart", "line_chart"),
   ("pie_chart", "pie_chart"), ("kpi", "kpi"), ("table", "table")]

/-- `type_map.get(chart_type, "bar_chart")` (non-string keys fall to the
default). -/
def backendTypeOf (v : PyVal) : String :=
  match v with
  | .str s => ((typeMap.find? (fun p => p.1 == s)).map Prod.snd).getD "bar_chart"
  | _ => "bar_chart"

/-- Title generation inside the widget loop (action_generator.py 451-458);
raises `AttributeError` when `.replace` is taken on a non-string value. -/
def widgetTitle (title0 chartType x1 y2 : PyVal) : Except PyErr PyVal :=
  if pyTruthy title0 then .ok title0
  else if pyTruthy x1 && pyTruthy y2 then
    match pyTitleOf y2, pyTitleOf x1 with
    | .ok ys, .ok xs => .ok (.str (ys ++ " by " ++ xs))
    | .error e, _ => .error e
    | _, .error e => .error e
  else if pyTruthy y2 then
    match pyTitleOf y2 with
    | .ok ys => .ok (.str ("Total " ++ ys))
    | .error e => .error e
  else
    match pyTitleOf chartType with
    | .ok cs => .ok (.str cs)
    | .error e => .error e

/-- Build one component from a widget spec (loop body, action_generator.py
422-480).  `row0` is the number of pre-existing components, `i` the index of
the spec. -/
def buildWidget (colInfo : ColInfo) (row0 : Nat) (uuid : Nat → String) (i : Nat)
    (w : PyVal) : Except PyErr PyVal :=
  match asDict w with
  | .error e => .error e
  | .ok spec =>
    let chartType := pyGetD spec "chart_type" (.str "bar_chart")
    let x0 := pyGetD spec "x_axis" .null
    let y0 := pyGetD spec "y_axis" .null
    let title0 := pyGetD spec "title" (.str "")
    let x1 :=
      if pyInStrList chartType ["bar_chart", "line_chart"] &&
          (!pyTruthy x0 || !pyTruthy y0) && (!pyTruthy x0 && !colInfo.string.isEmpty) then
        PyVal.str (colInfo.string.headD "")
      else x0
    let y1 :=
      if pyInStrList chartType ["bar_chart", "line_chart"] &&
          (!pyTruthy x0 || !pyTruthy y0) && (!pyTruthy y0 && !colInfo.numeric.isEmpty) then
        PyVal.str (colInfo.numeric.headD "")
      else y0
    let y2 := if pyEqStr chartType "kpi" && !pyTruthy y1 && !colInfo.numeric.isEmpty then
                PyVal.str (colInfo.numeric.headD "")
              else y1
    match widgetTitle title0 chartType x1 y2 with
    | .error e => .error e
    | .ok titleV => .ok (.obj
        [("id", .str (uuid i)), ("type", .str (backendTypeOf chartType)), ("title", titleV),
         ("config", .obj [("x_axis", x1), ("y_axis", y2), ("aggregation", .str "sum")]),
         ("position", .obj
           [("row", .num ((row0 + i / 3 : Nat) : Rat)),
            ("col", .num ((i % 3 * 4 : Nat) : Rat)),
            ("width", .num 4),
            ("height", .num (if pyEqStr chartType "kpi" then 1 else 2))])])

/-- The widget-spec loop. -/
def widgetsLoop (colInfo : ColInfo) (row0 : Nat) (uuid : Nat → String) :
    List PyVal → Nat → Except PyErr (List PyVal)
  | [], _ => .ok []
  | w :: ws, i =>
    match buildWidget colInfo row0 uuid i w with
    | .error e => .error e
    | .ok c =>
      match widgetsLoop colInfo row0 uuid ws (i + 1) with
      | .error e => .error e
      | .ok rest => .ok (c :: rest)

/-- KPI cards of the intelligent branch (action_generator.py 487-508);
returns the components and the final `(row, col)` cursor. -/
def kpiLoop (uuid : Nat → String) :
    List String → Nat → Nat → Nat → List PyVal × Nat × Nat
  | [], _, row, col => ([], row, col)
  | n :: rest, i, row, col =>
    let comp : PyVal := .obj
      [("id", .str (uuid i)), ("type", .str "kpi"),
       ("title", .str ("Total " ++ titleize n)),
       ("config", .obj [("x_axis", .null), ("y_axis", .str n), ("aggregation", .str "sum")]),
       ("position", .obj [("row", .num (row : Rat)), ("col", .num (col : Rat)),
                          ("width", .num 4), ("height", .num 1)])]
    let col1 := col + 4
    let rc := if 12 ≤ col1 then (row + 1, 0) else (row, col1)
    let (cs, r2, c2) := kpiLoop uuid rest (i + 1) rc.1 rc.2
    (comp :: cs, r2, c2)

/-- Bar charts of the intelligent branch (action_generator.py 510-532). -/
def barLoop (uuid : Nat → String) (ynum : String) :
    List String → Nat → Nat → Nat → List PyVal × Nat × Nat
  | [], _, row, col => ([], row, col)
  | s :: rest, i, row, col =>
    let rc := if 12 < col + 6 then (row + 2, 0) else (row, col)
    let comp : PyVal := .obj
      [("id", .str (uuid i)), ("type", .str "bar_chart"),
       ("title", .str (titleize ynum ++ " by " ++ titleize s)),
       ("config", .obj [("x_axis", .str s), ("y_axis", .str ynum),
                        ("aggregation", .str "sum")]),
       ("position", .obj [("row", .num (rc.1 : Rat)), ("col", .num (rc.2 : Rat)),
                          ("width", .num 6), ("height", .num 2)])]
    let (cs, r2, c2) := barLoop uuid ynum rest (i + 1) rc.1 (rc.2 + 6)
    (comp :: cs, r2, c2)

/-- The intelligent dashboard generation (action_generator.py 481-554). -/
def intelligentComponents (colInfo : ColInfo) (row0 : Nat) (uuid : Nat → String) :
    List PyVal :=
  let (kpis, r1, c1) := kpiLoop uuid (colInfo.numeric.take 3) 0 row0 0
  let (bars, r2, c2) :=
    if !colInfo.string.isEmpty && !colInfo.numeric.isEmpty then
      barLoop uuid (colInfo.numeric.headD "") (colInfo.string.take 2) kpis.length r1 c1
    else ([], r1, c1)
  let lines :=
    if !colInfo.date.isEmpty && !colInfo.numeric.isEmpty then
      let rc := if 12 < c2 + 6 then (r2 + 2, 0) else (r2, c2)
      [PyVal.obj
        [("id", .str (uuid (kpis.length + bars.length))), ("type", .str "line_chart"),
         ("title", .str (titleize (colInfo.numeric.headD "") ++ " Trend")),
         ("config", .obj [("x_axis", .str (colInfo.date.headD "")),
                          ("y_axis", .str (colInfo.numeric.headD "")),
                          ("aggregation", .str "sum")]),
         ("position", .obj [("row", .num (rc.1 : Rat)), ("col", .num (rc.2 : Rat)),
                            ("width", .num 6), ("height", .num 2)])]]
    else []
  kpis ++ bars ++ lines

/-- The success result of `_generate_full_dashboard`
(action_generator.py 556-561). -/
def mkFullResult (comps : List PyVal) (intent : PyDict) : PyDict :=
  [("success", .bool true), ("action", .str "add_multiple_components"),
   ("components", .arr comps),
   ("explanation", pyGetD intent "explanation"
      (.str ("Generated comprehensive dashboard with " ++ toString comps.length ++ " widgets")))]

/-- `ActionGenerator._generate_full_dashboard` (action_generator.py
405-561). -/
def generateFullDashboard (dash : Dashboard) (params : PyVal) (colInfo : ColInfo)
    (intent : PyDict) (uuid : Nat → String) : Except PyErr PyDict :=
  match asDict params with
  | .error e => .error e
  | .ok p =>
    let widgetsSpec := pyGetD p "widgets" (.arr [])
    if pyTruthy widgetsSpec then
      match pyIterElems widgetsSpec with
      | .error e => .error e
      | .ok elems =>
        match widgetsLoop colInfo dash.components.length uuid elems 0 with
        | .error e => .error e
        | .ok comps => .ok (mkFullResult comps intent)
    else
      .ok (mkFullResult (intelligentComponents colInfo dash.components.length uuid) intent)

/-! ### `ActionGenerator._generate_answer_question` (action_generator.py 643-911)

The deterministic analysis works on `pd.DataFrame(dataset_data)`.  Model of
the pandas operations used: a column exists when some row carries the key
(`dfColumns`); aggregations skip rows where the key is absent (pandas
NaN-skipping); `groupby(...).sum()` sorts group keys ascending and drops
rows whose group key is absent; value sorts are modelled as stable sorts
(pandas' default quicksort fixes no tie order; no theorem depends on tie
order).  The well-typedness hypotheses of the theorems restrict numeric
columns to numeric cells, where this model agrees with pandas; on ill-typed
frames pandas raises inside the catch-all `try`, which no theorem
exercises. -/

/-- `pd.DataFrame(rows).columns`: keys in order of first appearance. -/
def dfColumns (rows : List Row) : List String :=
  rows.foldl
    (fun acc r => acc ++ ((r.map Prod.fst).dedup.filter (fun k => !acc.contains k)))
    []

/-- Cell of a row at a column. -/
def rowGet (r : Row) (c : String) : Option Cell :=
  (r.find? (fun p => p.1 == c)).map Prod.snd

/-- The numeric values present in a column, in row order. -/
def colNums (rows : List Row) (c : String) : List Rat :=
  rows.filterMap (fun r =>
    match rowGet r c with
    | some (.num q) => some q
    | _ => none)

/-- `df[c].sum()`. -/
def colSum (rows : List Row) (c : String) : Rat :=
  (colNums rows c).foldl (· + ·) 0

/-- `df[c].mean()` (division by the count of present values). -/
def colMean (rows : List Row) (c : String) : Rat :=
  colSum rows c / ((colNums rows c).length : Rat)

/-- `df[c].nunique()`. -/
def colUnique (rows : List Row) (c : String) : Nat :=
  ((rows.filterMap (fun r => rowGet r c)).dedup).length

/-- Stable descending insertion by a rational measure. -/
def insDescBy {α : Type} (f : α → Rat) (a : α) : List α → List α
  | [] => [a]
  | b :: bs => if f b < f a then a :: b :: bs else b :: insDescBy f a bs

/-- Stable descending sort by a rational measure. -/
def sortDescBy {α : Type} (f : α → Rat) (l : List α) : List α :=
  l.foldr (insDescBy f) []

/-- Order on cells for group-key sorting (numbers below strings; only
like-typed keys occur under the theorems' typing hypotheses). -/
def cellLeB : Cell → Cell → Bool
  | .num a, .num b => decide (a ≤ b)
  | .str a, .str b => decide (a ≤ b)
  | .num _, .str _ => true
  | .str _, .num _ => false

/-- Stable ascending insertion of a cell-keyed pair. -/
def insAscCell (a : Cell) : List Cell → List Cell
  | [] => [a]
  | b :: bs => if cellLeB b a then b :: insAscCell a bs else a :: b :: bs

/-- `df.groupby(cat)` group keys: the distinct present keys, sorted
ascending. -/
def groupKeys (rows : List Row) (cat : String) : List Cell :=
  ((rows.filterMap (fun r => rowGet r cat)).dedup).foldr insAscCell []

/-- `df.groupby(cat)[metric].sum()` for one group key. -/
def groupSum (rows : List Row) (cat metricCol : String) (k : Cell) : Rat :=
  colSum (rows.filter (fun r => rowGet r cat == some k)) metricCol

/-- `df.groupby(cat)[metric].sum().sort_values(ascending=False).head(n)`. -/
def groupSumTop (rows : List Row) (cat metricCol : String) (n : Nat) :
    List (Cell × Rat) :=
  (sortDescBy Prod.snd
    ((groupKeys rows cat).map (fun k => (k, groupSum rows cat metricCol k)))).take n

/-- `df.nlargest(n, metric)[metric]`: row-level top-N keyed by the frame
index (first occurrence kept on ties). -/
def nlargestTop (rows : List Row) (metricCol : String) (n : Nat) :
    List (Cell × Rat) :=
  (sortDescBy Prod.snd
    (rows.enum.filterMap (fun p =>
      match rowGet p.2 metricCol with
      | some (.num q) => some (Cell.num (p.1 : Rat), q)
      | _ => none))).take n

/-- `(df[c].min(), df.loc[df[c].idxmin()])`: minimum and first row attaining
it. -/
def colMinWithRow (rows : List Row) (c : String) : Rat × Row :=
  let m := ((colNums rows c).min?).getD 0
  (m, (rows.find? (fun r => rowGet r c == some (.num m))).getD [])

/-- `(df[c].max(), df.loc[df[c].idxmax()])`. -/
def colMaxWithRow (rows : List Row) (c : String) : Rat × Row :=
  let m := ((colNums rows c).max?).getD 0
  (m, (rows.find? (fun r => rowGet r c == some (.num m))).getD [])

/-- The ranking entry of `analysis_results` (`top_items`, `metric`, and the
optional `category`). -/
structure TopResult where
  items : List (Cell × Rat)
  metric : String
  category : Option String
deriving Repr, DecidableEq

/-- The `analysis_results` dict (action_generator.py 683-790).  `statistics`
records the columns handed to `df.describe()`: the describe values
(std/quartiles) are floating point and no claim concerns them, so only the
column set is kept.  `datasetRows`/`datasetCols` embed `dataset_info`. -/
structure AnalysisResults where
  top : Option TopResult := none
  average : Option (String × Rat) := none
  total : Option (String × Rat) := none
  count : Option Nat := none
  uniqueCount : Option (String × Nat) := none
  minimum : Option (String × Rat × Row) := none
  maximum : Option (String × Rat × Row) := none
  statistics : Option (List String) := none
  datasetRows : Nat := 0
  datasetCols : List String := []
deriving Repr, DecidableEq

/-- The keyword family of the `elif` chain classifying the question
(action_generator.py 692-783). -/
inductive QFamily where
  | ranking
  | meanF
  | sumF
  | cardinality
  | minF
  | maxF
  | descriptive
deriving Repr, DecidableEq

/-- Classify a (lower-cased) question by the source's `elif` chain. -/
def familyOf (qL : String) : QFamily :=
  let l := qL.data
  if hasSub l "top".data || hasSub l "highest".data || hasSub l "best".data then .ranking
  else if hasSub l "average".data || hasSub l "mean".data || hasSub l "avg".data then .meanF
  else if hasSub l "total".data || hasSub l "sum".data then .sumF
  else if hasSub l "count".data || hasSub l "how many".data ||
          hasSub l "number of".data then .cardinality
  else if hasSub l "minimum".data || hasSub l "min".data || hasSub l "lowest".data then .minF
  else if hasSub l "maximum".data || hasSub l "max".data then .maxF
  else .descriptive

/-- The deterministic analysis (action_generator.py 679-790).  The only
escape of the surrounding `try` modelled as an error is the `KeyError` of
`df[numeric_cols].describe()` when a catalog numeric column is missing from
the frame; it is caught by the handler's catch-all and turned into a failure
result by the caller. -/
def computeAnalysis (qL : String) (rows : List Row) (cols : List Column) :
    Except PyErr AnalysisResults :=
  let l := qL.data
  let dfCols := dfColumns rows
  let columnNames := cols.map Column.name
  let numericCols := (cols.filter (fun c => c.ctype == "numeric")).map Column.name
  let stringCols := (cols.filter (fun c => c.ctype == "string")).map Column.name
  let base : AnalysisResults := { datasetRows := rows.length, datasetCols := dfCols }
  match familyOf qL with
  | .ranking =>
    let n := (findTopN l).getD 5
    let metric0 := numericCols.find? (fun c => hasSub l (lowerL c.data))
    let metric := if truthyS metric0 then metric0
                  else if !numericCols.isEmpty then some (numericCols.headD "")
                  else metric0
    let category0 := stringCols.find? (fun c => hasSub l (lowerL c.data))
    let category := if truthyS category0 then category0
                    else if !stringCols.isEmpty then some (stringCols.headD "")
                    else category0
    .ok (if truthyS metric && truthyS category && dfCols.contains (metric.getD "") &&
            dfCols.contains (category.getD "") then
          let tr := TopResult.mk (groupSumTop rows (category.getD "") (metric.getD "") n)
            (metric.getD "") (some (category.getD ""))
          { base with top := some tr }
        else if truthyS metric && dfCols.contains (metric.getD "") then
          let tr := TopResult.mk (nlargestTop rows (metric.getD "") n) (metric.getD "") none
          { base with top := some tr }
        else base)
  | .meanF =>
    let avg := match numericCols.find? (fun c => hasSub l (lowerL c.data) &&
                   dfCols.contains c) with
               | some c => some (c, colMean rows c)
               | none =>
                 if !numericCols.isEmpty && dfCols.contains (numericCols.headD "") then
                   some (numericCols.headD "", colMean rows (numericCols.headD ""))
                 else none
    .ok { base with average := avg }
  | .sumF =>
    let tot := match numericCols.find? (fun c => hasSub l (lowerL c.data) &&
                   dfCols.contains c) with
               | some c => some (c, colSum rows c)
               | none =>
                 if !numericCols.isEmpty && dfCols.contains (numericCols.headD "") then
                   some (numericCols.headD "", colSum rows (numericCols.headD ""))
                 else none
    .ok { base with total := tot }
  | .cardinality =>
    let uc := if hasSub l "unique".data || hasSub l "distinct".data then
                match columnNames.find? (fun c => hasSub l (lowerL c.data) &&
                    dfCols.contains c) with
                | some c => some (c, colUnique rows c)
                | none => none
              else none
    .ok { base with count := some rows.length, uniqueCount := uc }
  | .minF =>
    .ok (match numericCols.find? (fun c => hasSub l (lowerL c.data) &&
            dfCols.contains c) with
         | some c => { base with minimum := some (c, (colMinWithRow rows c).1,
             (colMinWithRow rows c).2) }
         | none => base)
  | .maxF =>
    .ok (match numericCols.find? (fun c => hasSub l (lowerL c.data) &&
            dfCols.contains c) with
         | some c => { base with maximum := some (c, (colMaxWithRow rows c).1,
             (colMaxWithRow rows c).2) }
         | none => base)
  | .descriptive =>
    if numericCols.isEmpty then .ok base
    else if numericCols.all (fun c => dfCols.contains c) then
      .ok { base with statistics := some numericCols }
    else .error .keyError

/-! ### The templated fallback answer (action_generator.py 876-893) -/

/-- Split a reversed digit list into chunks of three (for thousands
grouping). -/
def chunk3 (l : List Char) : List (List Char) :=
  match l with
  | [] => []
  | a :: rest => (a :: rest.take 2) :: chunk3 (rest.drop 2)
termination_by l.length
decreasing_by simp [List.length_drop]; omega

/-- Thousands-separated rendering of a natural number (the `,` of the format
specs `{:,}` and `{:,.2f}`). -/
def fmtComma (n : Nat) : String :=
  String.intercalate ","
    (((chunk3 (toString n).data.reverse).map (fun c => String.mk c.reverse)).reverse)

/-- Two-digit zero-padded rendering. -/
def twoDigits (k : Nat) : String :=
  (if k < 10 then "0" else "") ++ toString k

/-- Model of the format `{:,.2f}`: sign, thousands-separated integer part,
two decimals (rounding models the decimal rendering of the float). -/
def fmt2 (q : Rat) : String :=
  let scaled : Int := round (q * 100)
  let a := scaled.natAbs
  (if scaled < 0 then "-" else "") ++ fmtComma (a / 100) ++ "." ++ twoDigits (a % 100)

/-- Model of Python `str` on a scalar cell (integers render without a
decimal point). -/
def pyStrCell : Cell → String
  | .num q => if q.den = 1 then toString q.num else toString q
  | .str s => s

/-- Model of `json.dumps(analysis_results, indent=2, default=str)` in the
last fallback branch: a deterministic rendering of the present entries in
source insertion order.  No theorem depends on this rendering agreeing
character-for-character with CPython's dump. -/
def dumpAnalysis (a : AnalysisResults) : String :=
  let entry (k v : String) : String := "\"" ++ k ++ "\": " ++ v
  let parts : List String :=
    (match a.minimum with
     | some (c, v, _) => [entry "minimum" ("\x7b" ++ c ++ ": " ++ fmt2 v ++ "\x7d")]
     | none => []) ++
    (match a.maximum with
     | some (c, v, _) => [entry "maximum" ("\x7b" ++ c ++ ": " ++ fmt2 v ++ "\x7d")]
     | none => []) ++
    (match a.uniqueCount with
     | some (c, n) => [entry "unique_count" ("\x7b" ++ c ++ ": " ++ toString n ++ "\x7d")]
     | none => []) ++
    (match a.statistics with
     | some cs => [entry "statistics" ("describe(" ++ String.intercalate ", " cs ++ ")")]
     | none => []) ++
    [entry "dataset_info"
      ("\x7brows: " ++ toString a.datasetRows ++ ", columns: " ++
       String.intercalate ", " a.datasetCols ++ "\x7d")]
  "\x7b" ++ String.intercalate ", " parts ++ "\x7d"

/-- The templated fallback answer assembled from the deterministic analysis
when the narrative LLM call fails (action_generator.py 878-893). -/
def fallbackAnswer (a : AnalysisResults) : String :=
  "Based on the data analysis:\n\n" ++
  (match a.top with
   | some t =>
     "Top items by " ++ t.metric ++ ":\n" ++
     String.join ((t.items.take 10).map
       (fun p => "- " ++ pyStrCell p.1 ++ ": " ++ fmt2 p.2 ++ "\n"))
   | none =>
     match a.average with
     | some (c, v) => "Average " ++ c ++ ": " ++ fmt2 v ++ "\n"
     | none =>
       match a.total with
       | some (c, v) => "Total " ++ c ++ ": " ++ fmt2 v ++ "\n"
       | none =>
         match a.count with
         | some n => "Total records: " ++ fmtComma n ++ "\n"
         | none => dumpAnalysis a)

/-- Encoding of the analysis for the `analysis` field of the success
result. -/
def encodeAnalysis (a : AnalysisResults) : PyVal :=
  .obj
    ((match a.top with
      | some t =>
        [("top_items", PyVal.obj (t.items.map (fun p => (pyStrCell p.1, PyVal.num p.2)))),
         ("metric", PyVal.str t.metric)] ++
        (match t.category with
         | some c => [("category", PyVal.str c)]
         | none => [])
      | none => []) ++
     (match a.average with
      | some (c, v) => [("average", PyVal.obj [(c, .num v)])]
      | none => []) ++
     (match a.total with
      | some (c, v) => [("total", PyVal.obj [(c, .num v)])]
      | none => []) ++
     (match a.count with
      | some n => [("count", PyVal.num (n : Rat))]
      | none => []) ++
     (match a.uniqueCount with
      | some (c, n) => [("unique_count", PyVal.obj [(c, .num (n : Rat))])]
      | none => []) ++
     (match a.minimum with
      | some (c, v, r) =>
        [("minimum", PyVal.obj [(c, .num v),
           ("row", .obj (r.map (fun p => (p.1, match p.2 with
             | .num q => PyVal.num q
             | .str s => PyVal.str s))))])]
      | none => []) ++
     (match a.maximum with
      | some (c, v, r) =>
        [("maximum", PyVal.obj [(c, .num v),
           ("row", .obj (r.map (fun p => (p.1, match p.2 with
             | .num q => PyVal.num q
             | .str s => PyVal.str s))))])]
      | none => []) ++
     (match a.statistics with
      | some cs => [("statistics", PyVal.arr (cs.map PyVal.str))]
      | none => []) ++
     [("dataset_info", PyVal.obj
        [("total_rows", .num (a.datasetRows : Rat)),
         ("total_columns", .num (a.datasetCols.length : Rat)),
         ("columns", .arr (a.datasetCols.map PyVal.str))])])

/-- The `NoDataAvailable` failure (action_generator.py 661-666). -/
def noDataFailure : PyDict :=
  [("success", .bool false), ("error", .str "No data available"),
   ("explanation", .str "I need data to answer your question. Please ensure your dataset is loaded.")]

/-- The failure returned when `GeminiClient()` raises
(action_generator.py 669-676).  The source interpolates `str(e)` into the
explanation; the provider error text is external and elided. -/
def geminiUnavailableFailure : PyDict :=
  [("success", .bool false), ("error", .str "Gemini not available"),
   ("explanation", .str "Gemini is required for Q&A but is not available. Please configure Gemini API key.")]

/-- Rendering of a `PyErr` (model of `str(e)` in the caught-exception
messages). -/
def pyErrName : PyErr → String
  | .attributeError => "AttributeError"
  | .typeError => "TypeError"
  | .keyError => "KeyError"

/-- The failure produced by the handler's catch-all `except`
(action_generator.py 903-911). -/
def caughtFailure (e : PyErr) : PyDict :=
  [("success", .bool false), ("error", .str (pyErrName e)),
   ("explanation", .str ("I encountered an error analyzing the data: " ++ pyErrName e ++
      ". Please try rephrasing your question or check that your data is properly loaded."))]

/-- `ActionGenerator._generate_answer_question` (action_generator.py
643-911).  `geminiOk` models whether `GeminiClient()` constructs; `llmAnswer`
models the narrative `generate` call (`none` = the call raised).  The prompt
contexts built at 792-873 only feed that call and are elided.  The only
uncaught exception is a failing `.get` on a non-dict parameter bag (line
656, before the `try`). -/
def generateAnswerQuestion (dash : Dashboard) (params : PyVal) (intent : PyDict)
    (cols : List Column) (geminiOk : Bool) (llmAnswer : Option String) :
    Except PyErr PyDict :=
  match asDict params with
  | .error e => .error e
  | .ok p =>
  let questionJ := pyOr (pyGetD p "question" (.str "")) (pyGetD intent "explanation" (.str ""))
  let rows := dash.datasetData.getD []
  if rows.isEmpty then .ok noDataFailure
  else if !geminiOk then .ok geminiUnavailableFailure
  else
    match questionJ with
    | .str question =>
      match computeAnalysis (lowerStr question) rows cols with
      | .error e => .ok (caughtFailure e)
      | .ok analysis =>
        let answer := match llmAnswer with
                      | some a => a
                      | none => fallbackAnswer analysis
        .ok [("success", .bool true), ("action", .str "answer_question"),
             ("question", .str question), ("explanation", .str answer),
             ("analysis", encodeAnalysis analysis)]
    | _ => .ok (caughtFailure .attributeError)

/-- `ActionGenerator._generate_explain_chart` (action_generator.py 563-641):
the chart lookup and prompt construction only feed the LLM call; both a
failing `GeminiClient()` and a failing `generate` fall to the same
explanation fallback; the handler always succeeds. -/
def generateExplainChart (params : PyVal) (intent : PyDict)
    (geminiOk : Bool) (llmExplain : Option String) : Except PyErr PyDict := do
  let p ← asDict params
  let chartId := pyOr (pyGetD p "chart_id" .null) (pyGetD intent "target_component" .null)
  let explanationV : PyVal :=
    match geminiOk, llmExplain with
    | true, some t => .str t
    | _, _ => pyGetD intent "explanation"
        (.str "Chart analysis: This chart displays the selected metrics. Review the data to identify trends and patterns for informed decision-making.")
  .ok [("success", .bool true), ("action", .str "explain_chart"),
       ("chart_id", chartId), ("explanation", explanationV),
       ("insights", explanationV)]

/-! ### `ActionGenerator.generate_action` (action_generator.py 10-91) and the
orchestrator (`agent.py`) -/

/-- The question indicators of the rescue rule (action_generator.py 28). -/
def questionIndicators : List String :=
  ["what", "which", "how many", "how much", "what's", "what are", "show me the", "tell me"]

/-- The example-command suggestions of the `unknown` handler
(action_generator.py 70-79). -/
def suggestionList : List String :=
  ["Try: 'Create a bar chart showing [metric] by [category]'",
   "Try: 'Show me [metric]'",
   "Try: 'Display total [metric]'",
   "Try: 'Add a line chart for [metric] over time'",
   "Try: 'Show KPIs for [metric]'",
   "Try: 'What are the top 5 [items] by [metric]?'",
   "Try: 'What's the average [metric]?'",
   "Try: 'Which [category] has the highest [metric]?'"]

/-- The failure returned for an `unknown` intent (action_generator.py
67-85). -/
def unknownSuggestions (intent : PyDict) : PyDict :=
  let explanationV := pyGetD intent "explanation" (.str "I didn't understand that command.")
  [("success", .bool false), ("error", .str "Unknown action type"),
   ("explanation", .str (pyStrJ explanationV ++ "\n\nAvailable commands:\n" ++
      String.intercalate "\n" (suggestionList.map (fun s => "- " ++ s)))),
   ("suggestions", .arr (suggestionList.map PyVal.str))]

/-- The `user_command_lower` of the rescue rule (action_generator.py 27). -/
def userCommandLower (intent : PyDict) : String :=
  if pyContains intent "user_command" then
    lowerStr (pyStrJ (pyGetD intent "user_command" .null))
  else ""

/-- The rescue rule for misclassified questions (action_generator.py 24-34):
an `unknown` intent whose explanation or original command contains a question
indicator is reinterpreted as `answer_question` with the explanation (or the
lower-cased command) as the question.  A non-string explanation raises on
`.lower()`. -/
def rescueIntent (intent : PyDict) : Except PyErr (Option (PyVal × PyVal)) :=
  if pyEqStr (pyGetD intent "action_type" .null) "unknown" then
    match pyGetD intent "explanation" (.str "") with
    | .str s =>
      let eL := lowerStr s
      let ucL := userCommandLower intent
      if questionIndicators.any (fun ind => hasSub eL.data ind.data ||
          hasSub ucL.data ind.data) then
        .ok (some (PyVal.str "answer_question",
                   PyVal.obj [("question", pyOr (.str s) (.str ucL))]))
      else .ok none
    | _ => .error .attributeError
  else .ok none

/-- `ActionGenerator.generate_action`: the rescue rule for misclassified
questions, then one handler per recognized action type. -/
def generateAction (intent : PyDict) (dash : Dashboard) (cols : List Column)
    (uuid : Nat → String) (geminiOk : Bool) (llmAnswer : Option String) :
    Except PyErr PyDict :=
  match rescueIntent intent with
  | .error e => .error e
  | .ok rescued =>
  let actionType := match rescued with
                    | some r => r.1
                    | none => pyGetD intent "action_type" .null
  let params := match rescued with
                | some r => r.2
                | none => pyGetD intent "parameters" (.obj [])
  let colInfo := categorizeColumns cols
  if pyEqStr actionType "generate_dashboard" then
    generateFullDashboard dash params colInfo intent uuid
  else if pyEqStr actionType "add_chart" then
    generateAddChart dash params colInfo intent uuid
  else if pyEqStr actionType "explain_chart" then
    generateExplainChart params intent geminiOk llmAnswer
  else if pyEqStr actionType "answer_question" then
    generateAnswerQuestion dash params intent cols geminiOk llmAnswer
  else if pyEqStr actionType "modify_chart" then
    generateModifyChart dash params intent
  else if pyEqStr actionType "remove_chart" then
    .ok (generateRemoveChart dash intent)
  else if pyEqStr actionType "filter_data" then
    generateFilter params intent
  else if pyEqStr actionType "transform_data" then
    .ok (generateTransform params intent)
  else if pyEqStr actionType "update_kpi" then
    generateUpdateKpi dash params intent
  else if pyEqStr actionType "rename_component" then
    generateRenameComponent dash params intent
  else if pyEqStr actionType "unknown" then
    .ok (unknownSuggestions intent)
  else
    .ok [("success", .bool false),
         ("error", .str ("Unknown action type: " ++ pyStrJ actionType)),
         ("explanation", pyGetD intent "explanation"
            (.str "Unknown action. Try commands like 'Create a bar chart' or 'Show me revenue'."))]

/-- `DashboardAgent.process_command` (agent.py 16-64), with the in-place
mutation of the caller's `dashboard_state` dict made explicit by returning
the final state: the dict the caller holds after the call is the second
component.  The conversation-history append does not influence the returned
action and is not modelled.  Oracles: `llmResponse` for the intent-stage
provider call, `geminiOk`/`llmAnswer` for the analysis-stage Gemini client
and call. -/
def processCommand (userCommand : String) (dash : Dashboard) (cols : List Column)
    (dataset : List Row) (llmResponse : Option String) (uuid : Nat → String)
    (geminiOk : Bool) (llmAnswer : Option String) :
    Except PyErr PyDict × Dashboard :=
  let intent := parseIntent userCommand cols llmResponse
  let at0 := pyGetD intent "action_type" .null
  let dash' :=
    if !dataset.isEmpty &&
        (pyEqStr at0 "explain_chart" || pyEqStr at0 "answer_question") then
      let limited := dataset.take (if pyEqStr at0 "answer_question" then 500 else 100)
      { dash with datasetData := some limited }
    else dash
  (generateAction intent dash' cols uuid geminiOk llmAnswer, dash')

/-! ### Theorems: C1 (Intent Extractor) -/

/-- Input text containing no brace characters. -/
abbrev braceFree (l : List Char) : Prop := ∀ c ∈ l, c ≠ '{' ∧ c ≠ '}'

theorem braceFree_drop {l : List Char} (h : braceFree l) (n : Nat) :
    braceFree (l.drop n) := fun c hc => h c (List.drop_subset n l hc)

theorem braceFree_dropWhile {l : List Char} (h : braceFree l) (p : Char → Bool) :
    braceFree (l.dropWhile p) :=
  fun c hc => h c ((List.dropWhile_sublist p).subset hc)

theorem braceFree_reverse {l : List Char} (h : braceFree l) :
    braceFree l.reverse := fun c hc => h c (List.mem_reverse.mp hc)

theorem braceFree_stripL {l : List Char} (h : braceFree l) : braceFree (stripL l) := by
  unfold stripL
  exact braceFree_reverse (braceFree_dropWhile (braceFree_reverse (braceFree_dropWhile h _)) _)

theorem tryP1_braceFree {l : List Char} (h : braceFree l) : tryP1 l = none := by
  cases l with
  | nil => rfl
  | cons c rest =>
    have hc := (h c (by simp)).1
    simp [tryP1, hc]

theorem tryP2_braceFree {l : List Char} (h : braceFree l) : tryP2 l = none := by
  cases l with
  | nil => rfl
  | cons c rest =>
    have hc := (h c (by simp)).1
    simp [tryP2, hc]

theorem tryP3_braceFree {l : List Char} (h : braceFree l) : tryP3 l = none := by
  unfold tryP3
  have h1 : braceFree ((l.drop 7).dropWhile isSpC) :=
    braceFree_dropWhile (braceFree_drop h 7) _
  cases hr : (l.drop 7).dropWhile isSpC with
  | nil => simp [hr]
  | cons c r2 =>
    have hc : c ≠ '{' := by
      have := h1 c (by rw [hr]; simp)
      exact this.1
    simp [hr, hc]

theorem tryP4_braceFree {l : List Char} (h : braceFree l) : tryP4 l = none := by
  unfold tryP4
  have h1 : braceFree ((l.drop 3).dropWhile isSpC) :=
    braceFree_dropWhile (braceFree_drop h 3) _
  cases hr : (l.drop 3).dropWhile isSpC with
  | nil => simp [hr]
  | cons c r2 =>
    have hc : c ≠ '{' := by
      have := h1 c (by rw [hr]; simp)
      exact this.1
    simp [hr, hc]

theorem findAllLen_braceFree (try1 : List Char → Option Nat)
    (hnone : ∀ l : List Char, braceFree l → try1 l = none) :
    ∀ (f : Nat) (l : List Char), braceFree l → findAllLen try1 f l = [] := by
  intro f
  induction f with
  | zero => intro l _; rfl
  | succ f ih =>
    intro l h
    cases l with
    | nil => rfl
    | cons c rest =>
      have := hnone (c :: rest) h
      simp only [findAllLen, this]
      exact ih rest (fun d hd => h d (by simp [hd]))

theorem findAllGrp_braceFree (try1 : List Char → Option (List Char × Nat))
    (hnone : ∀ l : List Char, braceFree l → try1 l = none) :
    ∀ (f : Nat) (l : List Char), braceFree l → findAllGrp try1 f l = [] := by
  intro f
  induction f with
  | zero => intro l _; rfl
  | succ f ih =>
    intro l h
    cases l with
    | nil => rfl
    | cons c rest =>
      have := hnone (c :: rest) h
      simp only [findAllGrp, this]
      exact ih rest (fun d hd => h d (by simp [hd]))

theorem strategy1_braceFree {l : List Char} (h : braceFree l) : strategy1 l = none := by
  unfold strategy1 jsonCandidates
  rw [findAllLen_braceFree tryP1 (fun _ hh => tryP1_braceFree hh) _ _ h,
      findAllLen_braceFree tryP2 (fun _ hh => tryP2_braceFree hh) _ _ h,
      findAllGrp_braceFree tryP3 (fun _ hh => tryP3_braceFree hh) _ _ h,
      findAllGrp_braceFree tryP4 (fun _ hh => tryP4_braceFree hh) _ _ h]
  rfl

theorem subFenceJson_braceFree :
    ∀ (f : Nat) (l : List Char), braceFree l → braceFree (subFenceJson f l) := by
  intro f
  induction f with
  | zero => intro l h; exact h
  | succ f ih =>
    intro l h
    cases l with
    | nil => intro c hc; cases hc
    | cons a rest =>
      by_cases hs : lstartsWith (a :: rest) ['`', '`', '`', 'j', 's', 'o', 'n'] = true
      · simp only [subFenceJson, hs, if_true]
        exact ih _ (braceFree_dropWhile (braceFree_drop h 7) _)
      · simp only [subFenceJson, hs, if_false]
        intro c hc
        rcases List.mem_cons.mp hc with hc | hc
        · exact h c (by simp [hc])
        · exact ih rest (fun d hd => h d (by simp [hd])) c hc

theorem subFence3_braceFree :
    ∀ (f : Nat) (l : List Char), braceFree l → braceFree (subFence3 f l) := by
  intro f
  induction f with
  | zero => intro l h; exact h
  | succ f ih =>
    intro l h
    cases l with
    | nil => intro c hc; cases hc
    | cons a rest =>
      by_cases hs : lstartsWith (a :: rest) ['`', '`', '`'] = true
      · simp only [subFence3, hs, if_true]
        exact ih _ (braceFree_dropWhile (braceFree_drop h 3) _)
      · simp only [subFence3, hs, if_false]
        intro c hc
        rcases List.mem_cons.mp hc with hc | hc
        · exact h c (by simp [hc])
        · exact ih rest (fun d hd => h d (by simp [hd])) c hc

theorem firstIdxOf_none {t : Char} {l : List Char} (h : ∀ c ∈ l, c ≠ t) :
    firstIdxOf t l = none := by
  induction l with
  | nil => rfl
  | cons a rest ih =>
    have ha : (a == t) = false := by simp [h a (by simp)]
    simp only [firstIdxOf, ha, if_false, Bool.false_eq_true]
    rw [ih (fun c hc => h c (by simp [hc]))]
    rfl

theorem strategy2_braceFree {l : List Char} (h : braceFree l) : strategy2 l = none := by
  unfold strategy2
  simp only []
  have h2 : braceFree (stripL (subFence3
      (subFenceJson (stripL l).length (stripL l)).length
      (subFenceJson (stripL l).length (stripL l)))) :=
    braceFree_stripL (subFence3_braceFree _ _ (subFenceJson_braceFree _ _ (braceFree_stripL h)))
  rw [firstIdxOf_none (fun c hc => (h2 c hc).1)]

/-- C1: for every input string the layered extraction is total (it returns a
dict by construction): strategy 1's accepted dict always contains the key
`action_type` and is returned as is; when strategy 1 finds nothing, any dict
decoded by the fence-stripping strategy 2 is returned; and an input with no
`{`/`}` characters falls through to the `unknown` sentinel with the rephrase
explanation. -/
theorem extract_json_strict_layered (s : String) :
    (∀ d, strategy1 s.data = some d →
        pyContains d "action_type" = true ∧ extractJsonStrict s = d) ∧
    (strategy1 s.data = none → ∀ d, strategy2 s.data = some d → extractJsonStrict s = d) ∧
    (braceFree s.data → extractJsonStrict s = unknownSentinel) := by
  refine ⟨?_, ?_, ?_⟩
  · intro d hd
    refine ⟨?_, by simp [extractJsonStrict, hd]⟩
    rcases List.exists_of_findSome?_eq_some hd with ⟨cand, _, hf⟩
    cases hj : jsonRead cand with
    | none => simp [hj] at hf
    | some v =>
      cases v with
      | obj fs =>
        rw [hj] at hf
        simp only [] at hf
        by_cases hp : pyContains fs "action_type" = true
        · rw [if_pos hp] at hf
          cases hf
          exact hp
        · rw [if_neg hp] at hf
          cases hf
      | null => simp [hj] at hf
      | bool b => simp [hj] at hf
      | num q => simp [hj] at hf
      | str t => simp [hj] at hf
      | arr xs => simp [hj] at hf
  · intro h1 d h2
    simp [extractJsonStrict, h1, h2]
  · intro h
    simp [extractJsonStrict, strategy1_braceFree h, strategy2_braceFree h]

/-- Witness for C1 at a concrete brace-free input. -/
theorem extract_json_strict_layered_witness :
    braceFree "The model returned no structured output at all.".data ∧
    extractJsonStrict "The model returned no structured output at all." = unknownSentinel :=
  ⟨by decide,
   (extract_json_strict_layered "The model returned no structured output at all.").2.2
     (by decide)⟩

/-! ### Theorems: C2 (Intent Validator) -/

theorem pyGet_fillDefault_self (d : PyDict) (k : String) (v : PyVal) :
    pyGet (fillDefault d k v) k = some ((pyGet d k).getD v) := by
  unfold fillDefault
  by_cases h : pyContains d k = true
  · rcases Option.isSome_iff_exists.mp h with ⟨x, hx⟩
    simp [h, hx]
  · have h0 : pyGet d k = none := by
      rcases hg : pyGet d k with _ | x
      · rfl
      · exact absurd (by simp [pyContains, hg]) h
    simp [h, h0, pyGet_pySet_self]

theorem pyGet_fillDefault_ne (d : PyDict) (k k' : String) (v : PyVal) (h : k' ≠ k) :
    pyGet (fillDefault d k v) k' = pyGet d k' := by
  unfold fillDefault
  by_cases hc : pyContains d k = true
  · simp [hc]
  · simp [hc, pyGet_pySet_ne d k k' v h]

theorem pyEqStr_eq_true_iff (j : PyVal) (s : String) :
    pyEqStr j s = true ↔ j = .str s := by
  cases j <;> simp [pyEqStr]

theorem pyInStrList_eq_true_iff (j : PyVal) (l : List String) :
    pyInStrList j l = true ↔ ∃ s ∈ l, j = .str s := by
  simp [pyInStrList, List.any_eq_true, pyEqStr_eq_true_iff]

theorem filledAction_action_type (action : PyDict) :
    pyGet (filledAction action) "action_type" =
      some ((pyGet action "action_type").getD (.str "unknown")) := by
  unfold filledAction
  rw [pyGet_fillDefault_ne _ _ _ _ (by decide),
      pyGet_fillDefault_ne _ _ _ _ (by decide),
      pyGet_fillDefault_ne _ _ _ _ (by decide),
      pyGet_fillDefault_self]

theorem filledAction_target (action : PyDict) :
    pyGet (filledAction action) "target_component" =
      some ((pyGet action "target_component").getD .null) := by
  unfold filledAction
  rw [pyGet_fillDefault_ne _ _ _ _ (by decide),
      pyGet_fillDefault_ne _ _ _ _ (by decide),
      pyGet_fillDefault_self,
      pyGet_fillDefault_ne _ _ _ _ (by decide)]

theorem filledAction_parameters (action : PyDict) :
    pyGet (filledAction action) "parameters" =
      some ((pyGet action "parameters").getD (.obj [])) := by
  unfold filledAction
  rw [pyGet_fillDefault_ne _ _ _ _ (by decide),
      pyGet_fillDefault_self,
      pyGet_fillDefault_ne _ _ _ _ (by decide),
      pyGet_fillDefault_ne _ _ _ _ (by decide)]

theorem filledAction_explanation (action : PyDict) :
    pyGet (filledAction action) "explanation" =
      some ((pyGet action "explanation").getD (.str "Processing your request.")) := by
  unfold filledAction
  rw [pyGet_fillDefault_self,
      pyGet_fillDefault_ne _ _ _ _ (by decide),
      pyGet_fillDefault_ne _ _ _ _ (by decide),
      pyGet_fillDefault_ne _ _ _ _ (by decide)]

/-- C2: validation always yields a mapping with the four required keys
present (absent keys filled with their defaults: `action_type → "unknown"`,
`target_component → null`, `parameters → {}`, `explanation → generic`), with
`action_type` constrained to the 11-value vocabulary; an input `action_type`
outside the vocabulary is coerced to `"unknown"` and the explanation is
overwritten with the list of valid values. -/
theorem validate_action_normalizes (action : PyDict) :
    (pyContains (validateAction action) "action_type" = true ∧
     pyContains (validateAction action) "target_component" = true ∧
     pyContains (validateAction action) "parameters" = true ∧
     pyContains (validateAction action) "explanation" = true) ∧
    (∃ s, s ∈ validActions ∧ pyGet (validateAction action) "action_type" = some (.str s)) ∧
    (∀ j, pyGet action "action_type" = some j → pyInStrList j validActions = false →
      pyGet (validateAction action) "action_type" = some (.str "unknown") ∧
      pyGet (validateAction action) "explanation" = some (.str invalidActionMsg)) ∧
    (pyGet action "action_type" = none →
      pyGet (validateAction action) "action_type" = some (.str "unknown")) ∧
    (pyGet action "target_component" = none →
      pyGet (validateAction action) "target_component" = some .null) ∧
    (pyGet action "parameters" = none →
      pyGet (validateAction action) "parameters" = some (.obj [])) ∧
    (pyGet action "explanation" = none →
      (pyGet (validateAction action) "explanation" = some (.str "Processing your request.") ∨
       pyGet (validateAction action) "explanation" = some (.str invalidActionMsg))) := by
  have hA := filledAction_action_type action
  have hT := filledAction_target action
  have hP := filledAction_parameters action
  have hE := filledAction_explanation action
  have hgd : pyGetD (filledAction action) "action_type" .null =
      (pyGet action "action_type").getD (.str "unknown") := by
    rw [pyGetD, hA]; rfl
  unfold validateAction
  simp only []
  rw [hgd]
  by_cases hv : pyInStrList ((pyGet action "action_type").getD (.str "unknown"))
      validActions = true
  · rw [if_pos hv]
    refine ⟨⟨?_, ?_, ?_, ?_⟩, ?_, ?_, ?_, ?_, ?_, ?_⟩
    · simp [pyContains, hA]
    · simp [pyContains, hT]
    · simp [pyContains, hP]
    · simp [pyContains, hE]
    · rcases (pyInStrList_eq_true_iff _ _).mp hv with ⟨s, hs, hjs⟩
      exact ⟨s, hs, by rw [hA, hjs]⟩
    · intro j hj hbad
      rw [hj] at hv
      simp at hv
      exact absurd hv (by simp [hbad])
    · intro h0; rw [hA, h0]; rfl
    · intro h0; rw [hT, h0]; rfl
    · intro h0; rw [hP, h0]; rfl
    · intro h0; left; rw [hE, h0]; rfl
  · rw [if_neg hv]
    have hat : pyGet (pySet (pySet (filledAction action) "action_type" (.str "unknown"))
        "explanation" (.str invalidActionMsg)) "action_type" = some (.str "unknown") := by
      rw [pyGet_pySet_ne _ _ _ _ (by decide), pyGet_pySet_self]
    have hex : pyGet (pySet (pySet (filledAction action) "action_type" (.str "unknown"))
        "explanation" (.str invalidActionMsg)) "explanation" = some (.str invalidActionMsg) :=
      pyGet_pySet_self _ _ _
    have htc : pyGet (pySet (pySet (filledAction action) "action_type" (.str "unknown"))
        "explanation" (.str invalidActionMsg)) "target_component" =
        pyGet (filledAction action) "target_component" := by
      rw [pyGet_pySet_ne _ _ _ _ (by decide), pyGet_pySet_ne _ _ _ _ (by decide)]
    have hpp : pyGet (pySet (pySet (filledAction action) "action_type" (.str "unknown"))
        "explanation" (.str invalidActionMsg)) "parameters" =
        pyGet (filledAction action) "parameters" := by
      rw [pyGet_pySet_ne _ _ _ _ (by decide), pyGet_pySet_ne _ _ _ _ (by decide)]
    refine ⟨⟨?_, ?_, ?_, ?_⟩, ?_, ?_, ?_, ?_, ?_, ?_⟩
    · simp [pyContains, hat]
    · simp [pyContains, htc, hT]
    · simp [pyContains, hpp, hP]
    · simp [pyContains, hex]
    · exact ⟨"unknown", by simp [validActions], hat⟩
    · intro j _ _; exact ⟨hat, hex⟩
    · intro _; exact hat
    · intro h0; rw [htc, hT, h0]; rfl
    · intro h0; rw [hpp, hP, h0]; rfl
    · intro _; right; exact hex

/-- Witness for C2 at a concrete mapping with an unrecognized action type and
missing keys. -/
theorem validate_action_normalizes_witness :
    pyGet [("action_type", PyVal.str "fly_to_moon")] "action_type" =
      some (.str "fly_to_moon") ∧
    pyInStrList (.str "fly_to_moon") validActions = false ∧
    (pyGet (validateAction [("action_type", PyVal.str "fly_to_moon")]) "action_type" =
       some (.str "unknown") ∧
     pyGet (validateAction [("action_type", PyVal.str "fly_to_moon")]) "explanation" =
       some (.str invalidActionMsg)) :=
  ⟨rfl, rfl, (validate_action_normalizes _).2.2.1 (.str "fly_to_moon") rfl rfl⟩

/-! ### Theorems: C4 (provider fallback at parser construction) -/

/-- C4 counterexample: with the preferred provider `huggingface` available as
a package but unable to initialize its model pipeline, the parser keeps the
dead HuggingFace client — it does not substitute Ollama and logs no fallback
warning. -/
theorem intent_parser_init_keeps_failed_huggingface :
    (intentParserInit "huggingface" true true true false).client =
      .huggingfaceClient false ∧
    (intentParserInit "huggingface" true true true false).client ≠ .ollamaClient ∧
    (intentParserInit "huggingface" true true true false).warned = false := by
  decide

/-- C4 amended: the Ollama substitution (with warning) happens exactly when
the preferred provider is `gemini` and its client construction fails, or
when the preferred provider is unavailable/unrecognized; a `huggingface`
provider with its package importable is kept regardless of whether its
pipeline initialized (its constructor swallows the failure), so constructing
the parser never raises. -/
theorem intent_parser_init_fallback (provider : String)
    (geminiAvailable hfAvailable geminiInitOk hfPipelineOk : Bool) :
    (provider = "gemini" → geminiAvailable = true → geminiInitOk = false →
      intentParserInit provider geminiAvailable hfAvailable geminiInitOk hfPipelineOk =
        ⟨.ollamaClient, true⟩) ∧
    (¬(provider = "gemini" ∧ geminiAvailable = true) → provider ≠ "ollama" →
      ¬(provider = "huggingface" ∧ hfAvailable = true) →
      intentParserInit provider geminiAvailable hfAvailable geminiInitOk hfPipelineOk =
        ⟨.ollamaClient, true⟩) ∧
    (provider = "huggingface" → hfAvailable = true →
      (intentParserInit provider geminiAvailable hfAvailable geminiInitOk hfPipelineOk).client =
        .huggingfaceClient hfPipelineOk) := by
  refine ⟨?_, ?_, ?_⟩
  · intro h1 h2 h3
    subst h1; subst h2; subst h3
    simp [intentParserInit]
  · intro h1 h2 h3
    have e1 : (provider == "gemini" && geminiAvailable) = false := by
      by_cases hp : provider = "gemini"
      · cases hga : geminiAvailable
        · simp [hga]
        · exact absurd ⟨hp, hga⟩ h1
      · simp [hp]
    have e2 : (provider == "ollama") = false := by simp [h2]
    have e3 : (provider == "huggingface" && hfAvailable) = false := by
      by_cases hp : provider = "huggingface"
      · cases hha : hfAvailable
        · simp [hha]
        · exact absurd ⟨hp, hha⟩ h3
      · simp [hp]
    simp [intentParserInit, e1, e2, e3]
  · intro h1 h2
    subst h1; subst h2
    simp [intentParserInit]

/-- Witness for C4 amended at a failing preferred Gemini provider. -/
theorem intent_parser_init_fallback_witness :
    intentParserInit "gemini" true false false true = ⟨.ollamaClient, true⟩ :=
  (intent_parser_init_fallback "gemini" true false false true).1 rfl rfl rfl

/-! ### Theorems: C6 (rule-based classification) -/

/-- C6 counterexample: a command containing `"show only"` is classified
`add_chart`, not `filter_data`, because the visualization keyword `"show"`
is tested first. -/
theorem rule_based_show_only_classified_add_chart :
    hasSub (lowerL "show only revenue".data) "show only".data = true ∧
    pyGet (ruleBasedParse "show only revenue" []) "action_type" =
      some (.str "add_chart") ∧
    pyGet (ruleBasedParse "show only revenue" []) "action_type" ≠
      some (.str "filter_data") := by
  refine ⟨rfl, rfl, ?_⟩
  intro h
  have h' : some (PyVal.str "add_chart") = some (PyVal.str "filter_data") := h
  injection h' with hh
  injection hh with hs
  exact absurd hs (by decide)

/-- C6 amended: the Rule-Based Matcher classifies by the first matching rule
in the fixed order visualization → remove → filter → modify → rename →
unknown; in particular filter/"show only"/"top" commands yield `filter_data`
only when no visualization keyword and no remove/delete/drop keyword is
present (and any command containing "show only" contains the visualization
keyword "show", so the "show only" trigger can only fire together with it). -/
theorem rule_based_keyword_precedence (command : String) (cols : List Column) :
    (containsAny (lowerL command.data) vizKeywords = true →
       pyGet (ruleBasedParse command cols) "action_type" = some (.str "add_chart")) ∧
    (containsAny (lowerL command.data) vizKeywords = false →
     containsAny (lowerL command.data) ["remove", "delete", "drop"] = true →
       pyGet (ruleBasedParse command cols) "action_type" = some (.str "remove_chart")) ∧
    (containsAny (lowerL command.data) vizKeywords = false →
     containsAny (lowerL command.data) ["remove", "delete", "drop"] = false →
     (hasSub (lowerL command.data) "filter".data ||
      hasSub (lowerL command.data) "show only".data ||
      hasSub (lowerL command.data) "top".data) = true →
       pyGet (ruleBasedParse command cols) "action_type" = some (.str "filter_data")) ∧
    (containsAny (lowerL command.data) vizKeywords = false →
     containsAny (lowerL command.data) ["remove", "delete", "drop"] = false →
     (hasSub (lowerL command.data) "filter".data ||
      hasSub (lowerL command.data) "show only".data ||
      hasSub (lowerL command.data) "top".data) = false →
     containsAny (lowerL command.data) ["change", "modify", "update", "switch"] = true →
       pyGet (ruleBasedParse command cols) "action_type" = some (.str "modify_chart")) ∧
    (containsAny (lowerL command.data) vizKeywords = false →
     containsAny (lowerL command.data) ["remove", "delete", "drop"] = false →
     (hasSub (lowerL command.data) "filter".data ||
      hasSub (lowerL command.data) "show only".data ||
      hasSub (lowerL command.data) "top".data) = false →
     containsAny (lowerL command.data) ["change", "modify", "update", "switch"] = false →
     hasSub (lowerL command.data) "rename".data = true →
       pyGet (ruleBasedParse command cols) "action_type" = some (.str "rename_component")) ∧
    (containsAny (lowerL command.data) vizKeywords = false →
     containsAny (lowerL command.data) ["remove", "delete", "drop"] = false →
     (hasSub (lowerL command.data) "filter".data ||
      hasSub (lowerL command.data) "show only".data ||
      hasSub (lowerL command.data) "top".data) = false →
     containsAny (lowerL command.data) ["change", "modify", "update", "switch"] = false →
     hasSub (lowerL command.data) "rename".data = false →
       pyGet (ruleBasedParse command cols) "action_type" = some (.str "unknown")) := by
  refine ⟨?_, ?_, ?_, ?_, ?_, ?_⟩
  · intro h1
    simp [ruleBasedParse, h1, vizBranch, pyGet]
  · intro h1 h2
    simp [ruleBasedParse, h1, h2, pyGet]
  · intro h1 h2 h3
    simp only [Bool.or_eq_true] at h3
    simp [ruleBasedParse, h1, h2, h3, pyGet]
  · intro h1 h2 h3 h4
    simp only [Bool.or_eq_false_iff] at h3
    simp [ruleBasedParse, h1, h2, h3.1.1, h3.1.2, h3.2, h4, pyGet]
  · intro h1 h2 h3 h4 h5
    simp only [Bool.or_eq_false_iff] at h3
    simp [ruleBasedParse, h1, h2, h3.1.1, h3.1.2, h3.2, h4, h5, pyGet]
  · intro h1 h2 h3 h4 h5
    simp only [Bool.or_eq_false_iff] at h3
    simp [ruleBasedParse, h1, h2, h3.1.1, h3.1.2, h3.2, h4, h5, pyGet]

/-- Witness for C6 amended: a pure filter command with no visualization or
remove keyword. -/
theorem rule_based_keyword_precedence_witness :
    containsAny (lowerL "narrow to the east rows, top 3".data) vizKeywords = false ∧
    containsAny (lowerL "narrow to the east rows, top 3".data)
      ["remove", "delete", "drop"] = false ∧
    (hasSub (lowerL "narrow to the east rows, top 3".data) "filter".data ||
     hasSub (lowerL "narrow to the east rows, top 3".data) "show only".data ||
     hasSub (lowerL "narrow to the east rows, top 3".data) "top".data) = true ∧
    pyGet (ruleBasedParse "narrow to the east rows, top 3" []) "action_type" =
      some (.str "filter_data") :=
  ⟨rfl, rfl, rfl,
   (rule_based_keyword_precedence "narrow to the east rows, top 3" []).2.2.1 rfl rfl rfl⟩

/-! ### Theorems: C8 (remove_chart target resolution) -/

/-- C8 counterexample: on a dashboard with zero components but an explicit
truthy target id, `remove_chart` succeeds targeting that id — it does not
fail. -/
theorem remove_chart_empty_dash_explicit_target_succeeds :
    (Dashboard.mk [] none).components = [] ∧
    pyGet (generateRemoveChart ⟨[], none⟩ [("target_component", .str "c9")]) "success" =
      some (.bool true) ∧
    pyGet (generateRemoveChart ⟨[], none⟩ [("target_component", .str "c9")]) "component_id" =
      some (.str "c9") :=
  ⟨rfl, rfl, rfl⟩

/-- C8 amended: `remove_chart` resolves its target as — explicit truthy
target id (returned as is, regardless of the component list), else the id of
the last component, else a failure Action; the input dashboard is never
modified (the embedding is pure in the dashboard argument). -/
theorem remove_chart_target_resolution (dash : Dashboard) (intent : PyDict) :
    (pyTruthy (pyGetD intent "target_component" .null) = false → dash.components = [] →
      generateRemoveChart dash intent =
        [("success", .bool false), ("error", .str "No component to remove"),
         ("explanation", .str "No components found in dashboard")]) ∧
    (pyTruthy (pyGetD intent "target_component" .null) = false → dash.components ≠ [] →
      ∃ c, dash.components.getLast? = some c ∧
        pyGet (generateRemoveChart dash intent) "success" = some (.bool true) ∧
        pyGet (generateRemoveChart dash intent) "component_id" = some (.str c.id)) ∧
    (pyTruthy (pyGetD intent "target_component" .null) = true →
      pyGet (generateRemoveChart dash intent) "success" = some (.bool true) ∧
      pyGet (generateRemoveChart dash intent) "component_id" =
        some (pyGetD intent "target_component" .null)) := by
  refine ⟨?_, ?_, ?_⟩
  · intro h1 h2
    simp [generateRemoveChart, h1, h2]
  · intro h1 h2
    have hs : dash.components.getLast?.isSome := by
      rw [List.getLast?_isSome]
      exact h2
    rcases Option.isSome_iff_exists.mp hs with ⟨c, hc⟩
    exact ⟨c, hc, by simp [generateRemoveChart, h1, hc, pyGet],
           by simp [generateRemoveChart, h1, hc, pyGet]⟩
  · intro h1
    constructor
    · simp [generateRemoveChart, h1, pyGet]
    · simp [generateRemoveChart, h1, pyGet]

/-- Witness for C8 amended at a one-component dashboard with no explicit
target. -/
theorem remove_chart_target_resolution_witness :
    pyTruthy (pyGetD ([] : PyDict) "target_component" .null) = false ∧
    (Dashboard.mk [⟨"c1", "bar_chart", "t"⟩] none).components ≠ [] ∧
    ∃ c, (Dashboard.mk [⟨"c1", "bar_chart", "t"⟩] none).components.getLast? = some c ∧
      pyGet (generateRemoveChart ⟨[⟨"c1", "bar_chart", "t"⟩], none⟩ []) "success" =
        some (.bool true) ∧
      pyGet (generateRemoveChart ⟨[⟨"c1", "bar_chart", "t"⟩], none⟩ []) "component_id" =
        some (.str c.id) :=
  ⟨rfl, by simp,
   (remove_chart_target_resolution ⟨[⟨"c1", "bar_chart", "t"⟩], none⟩ []).2.1 rfl (by simp)⟩

/-! ### Theorems: C5 (add_chart axis defaults) -/

theorem truthyS_iff (o : Option String) :
    truthyS o = true ↔ ∃ s, o = some s ∧ s ≠ "" := by
  cases o with
  | none => simp [truthyS]
  | some s => simp [truthyS]

theorem headD_mem {α : Type} {l : List α} (h : l ≠ []) (d : α) : l.headD d ∈ l := by
  cases l with
  | nil => exact absurd rfl h
  | cons a t => simp [List.headD]

theorem mem_numericColsOf {cols : List Column} {s : String}
    (h : s ∈ numericColsOf cols) : ∃ c ∈ cols, s = c.name := by
  unfold numericColsOf at h
  rcases List.mem_map.mp h with ⟨c, hc, rfl⟩
  exact ⟨c, List.mem_of_mem_filter hc, rfl⟩

theorem mem_stringColsOf {cols : List Column} {s : String}
    (h : s ∈ stringColsOf cols) : ∃ c ∈ cols, s = c.name := by
  unfold stringColsOf at h
  rcases List.mem_map.mp h with ⟨c, hc, rfl⟩
  exact ⟨c, List.mem_of_mem_filter hc, rfl⟩

theorem mem_dateColsOf {cols : List Column} {s : String}
    (h : s ∈ dateColsOf cols) : ∃ c ∈ cols, s = c.name := by
  unfold dateColsOf at h
  rcases List.mem_map.mp h with ⟨c, hc, rfl⟩
  exact ⟨c, List.mem_of_mem_filter hc, rfl⟩

theorem defaultY_truthy (cols : List Column) (y2 : Option String)
    (hnames : ∀ c ∈ cols, c.name ≠ "")
    (hnum : ∃ c ∈ cols, c.ctype = "numeric") :
    ∃ s, defaultY cols y2 = some s ∧ s ≠ "" := by
  by_cases ht : truthyS y2 = true
  · rcases (truthyS_iff y2).mp ht with ⟨s, hs, hne⟩
    subst hs
    exact ⟨s, by simp [defaultY, ht], hne⟩
  · have ht' : truthyS y2 = false := by
      cases h : truthyS y2
      · rfl
      · exact absurd h ht
    have hnn : numericColsOf cols ≠ [] := by
      rcases hnum with ⟨c, hc, hty⟩
      intro hemp
      have : c.name ∈ numericColsOf cols := by
        unfold numericColsOf
        exact List.mem_map_of_mem _ (List.mem_filter.mpr ⟨hc, by simp [hty]⟩)
      rw [hemp] at this
      cases this
    have hne : ((numericColsOf cols).headD "") ≠ "" := by
      rcases mem_numericColsOf (headD_mem hnn "") with ⟨c, hc, hh⟩
      rw [hh]
      exact hnames c hc
    refine ⟨(numericColsOf cols).headD "", ?_, hne⟩
    unfold defaultY
    rw [ht']
    simp [List.isEmpty_iff, hnn]

theorem defaultX_truthy (cols : List Column) (x2 : Option String)
    (hnames : ∀ c ∈ cols, c.name ≠ "")
    (hcat : ∃ c ∈ cols, c.ctype = "string" ∨ c.ctype = "date") :
    ∃ s, defaultX cols x2 = some s ∧ s ≠ "" := by
  by_cases ht : truthyS x2 = true
  · rcases (truthyS_iff x2).mp ht with ⟨s, hs, hne⟩
    subst hs
    exact ⟨s, by simp [defaultX, ht], hne⟩
  · have ht' : truthyS x2 = false := by
      cases h : truthyS x2
      · rfl
      · exact absurd h ht
    by_cases hd : dateColsOf cols ≠ []
    · have hne : ((dateColsOf cols).headD "") ≠ "" := by
        rcases mem_dateColsOf (headD_mem hd "") with ⟨c, hc, hh⟩
        rw [hh]
        exact hnames c hc
      refine ⟨(dateColsOf cols).headD "", ?_, hne⟩
      unfold defaultX
      rw [ht']
      simp [List.isEmpty_iff, hd]
    · have hdnil : dateColsOf cols = [] := by
        by_contra hh
        exact hd hh
      have hs : stringColsOf cols ≠ [] := by
        rcases hcat with ⟨c, hc, hty | hty⟩
        · intro hemp
          have : c.name ∈ stringColsOf cols := by
            unfold stringColsOf
            exact List.mem_map_of_mem _ (List.mem_filter.mpr ⟨hc, by simp [hty]⟩)
          rw [hemp] at this
          cases this
        · exfalso
          apply hd
          intro hemp
          have : c.name ∈ dateColsOf cols := by
            unfold dateColsOf
            exact List.mem_map_of_mem _ (List.mem_filter.mpr ⟨hc, by simp [hty]⟩)
          rw [hemp] at this
          cases this
      have hne : ((stringColsOf cols).headD "") ≠ "" := by
        rcases mem_stringColsOf (headD_mem hs "") with ⟨c, hc, hh⟩
        rw [hh]
        exact hnames c hc
      refine ⟨(stringColsOf cols).headD "", ?_, hne⟩
      unfold defaultX
      rw [ht']
      simp [List.isEmpty_iff, hdnil, hs]

theorem vizParams_axes (cmdL : List Char) (cols : List Column)
    (hnames : ∀ c ∈ cols, c.name ≠ "")
    (hnum : ∃ c ∈ cols, c.ctype = "numeric")
    (hcat : ∃ c ∈ cols, c.ctype = "string" ∨ c.ctype = "date") :
    ∃ x y, x ≠ "" ∧ y ≠ "" ∧
      pyGet (vizParams cmdL cols) "x_axis" = some (.str x) ∧
      pyGet (vizParams cmdL cols) "y_axis" = some (.str y) := by
  rcases defaultX_truthy cols (vizAxes cmdL cols).1 hnames hcat with ⟨x, hx, hxne⟩
  rcases defaultY_truthy cols (vizAxes cmdL cols).2 hnames hnum with ⟨y, hy, hyne⟩
  have htx : truthyS (defaultX cols (vizAxes cmdL cols).1) = true := by
    rw [hx]; simp [truthyS, hxne]
  have hty : truthyS (defaultY cols (vizAxes cmdL cols).2) = true := by
    rw [hy]; simp [truthyS, hyne]
  refine ⟨x, y, hxne, hyne, ?_, ?_⟩
  · unfold vizParams
    simp only []
    rw [htx, hty]
    simp only [if_true, hx, hy]
    rw [pyGet_pySet_ne _ _ _ _ (by decide), pyGet_pySet_self]
    rfl
  · unfold vizParams
    simp only []
    rw [htx, hty]
    simp only [if_true, hx, hy]
    rw [pyGet_pySet_self]
    rfl

/-- C5 counterexample: a catalog holding a numeric column and a string
column, where the numeric column's name is the empty string: the command is
classified `add_chart` but the resulting parameters contain no `y_axis` key
at all (the empty name is falsy, so the key is never added). -/
theorem rule_based_add_chart_missing_y_axis :
    pyGet (ruleBasedParse "show data" [⟨"", "numeric"⟩, ⟨"c", "string"⟩]) "action_type" =
      some (.str "add_chart") ∧
    pyGet (ruleBasedParse "show data" [⟨"", "numeric"⟩, ⟨"c", "string"⟩]) "parameters" =
      some (.obj [("chart_type", .str "bar_chart"), ("x_axis", .str "c")]) ∧
    pyGet [("chart_type", PyVal.str "bar_chart"), ("x_axis", PyVal.str "c")] "y_axis" =
      none :=
  ⟨rfl, rfl, rfl⟩

/-- C5 amended: for every command the Rule-Based Matcher classifies as
`add_chart`, if the Column Catalog contains a numeric column and a
string-or-date column and every column name is a non-empty string, the
resulting Intent's parameters carry a non-null `x_axis` and a non-null
`y_axis` (defaulting to the first date/string column and the first numeric
column when no earlier binding rule matched). -/
theorem rule_based_add_chart_axes_present (command : String) (cols : List Column)
    (hnames : ∀ c ∈ cols, c.name ≠ "")
    (hnum : ∃ c ∈ cols, c.ctype = "numeric")
    (hcat : ∃ c ∈ cols, c.ctype = "string" ∨ c.ctype = "date")
    (hadd : pyGet (ruleBasedParse command cols) "action_type" = some (.str "add_chart")) :
    ∃ ps x y, pyGet (ruleBasedParse command cols) "parameters" = some (.obj ps) ∧
      x ≠ "" ∧ y ≠ "" ∧
      pyGet ps "x_axis" = some (.str x) ∧ pyGet ps "y_axis" = some (.str y) := by
  have hviz : containsAny (lowerL command.data) vizKeywords = true := by
    by_contra hv
    have hv' : containsAny (lowerL command.data) vizKeywords = false := by
      cases h : containsAny (lowerL command.data) vizKeywords
      · rfl
      · exact absurd h hv
    unfold ruleBasedParse at hadd
    simp only [hv', Bool.false_eq_true, if_false] at hadd
    split at hadd
    · simp [pyGet] at hadd
    · split at hadd
      · simp [pyGet] at hadd
      · split at hadd
        · simp [pyGet] at hadd
        · split at hadd
          · simp [pyGet] at hadd
          · simp [pyGet] at hadd
  rcases vizParams_axes (lowerL command.data) cols hnames hnum hcat with
    ⟨x, y, hxne, hyne, hgx, hgy⟩
  refine ⟨vizParams (lowerL command.data) cols, x, y, ?_, hxne, hyne, hgx, hgy⟩
  unfold ruleBasedParse
  simp only [hviz, if_true]
  rfl

/-- Witness for C5 amended at a two-column catalog. -/
theorem rule_based_add_chart_axes_present_witness :
    (∀ c ∈ [Column.mk "revenue" "numeric", Column.mk "region" "string"], c.name ≠ "") ∧
    (∃ c ∈ [Column.mk "revenue" "numeric", Column.mk "region" "string"],
       c.ctype = "numeric") ∧
    (∃ c ∈ [Column.mk "revenue" "numeric", Column.mk "region" "string"],
       c.ctype = "string" ∨ c.ctype = "date") ∧
    ∃ ps x y,
      pyGet (ruleBasedParse "plot the data"
        [Column.mk "revenue" "numeric", Column.mk "region" "string"]) "parameters" =
          some (.obj ps) ∧
      x ≠ "" ∧ y ≠ "" ∧
      pyGet ps "x_axis" = some (.str x) ∧ pyGet ps "y_axis" = some (.str y) :=
  ⟨by decide, by decide, by decide,
   rule_based_add_chart_axes_present "plot the data"
     [Column.mk "revenue" "numeric", Column.mk "region" "string"]
     (by decide) (by decide) (by decide) rfl⟩

/-! ### Theorems: C7 (generate_dashboard) -/

/-- A value that is `None` or a string (the shapes of well-formed axis/title
fields of a widget spec). -/
def nullOrStr : PyVal → Bool
  | .null => true
  | .str _ => true
  | _ => false

/-- Well-formed optional field of a widget spec: absent, `None`, or a
string. -/
def wfOptField (spec : PyDict) (k : String) : Bool :=
  match pyGet spec k with
  | none => true
  | some v => nullOrStr v

/-- Well-formed `chart_type` field: absent or a string (a present non-string
value can reach `chart_type.replace` and raise, like in the source). -/
def wfChartTypeField (spec : PyDict) : Bool :=
  match pyGet spec "chart_type" with
  | none => true
  | some (.str _) => true
  | some _ => false

/-- Well-formed widget spec: a dict whose `chart_type`/`x_axis`/`y_axis`/
`title` entries are well formed. -/
def wfSpecB : PyVal → Bool
  | .obj spec => wfChartTypeField spec && wfOptField spec "x_axis" &&
                 wfOptField spec "y_axis" && wfOptField spec "title"
  | _ => false

/-- Well-formed `widgets` parameter: a list of well-formed specs, or any
falsy value (which selects the intelligent branch). -/
def wfWidgetsB : PyVal → Bool
  | .arr ws => ws.all wfSpecB
  | v => !pyTruthy v

theorem wfChartTypeField_getD {spec : PyDict} (h : wfChartTypeField spec = true) :
    ∃ s, pyGetD spec "chart_type" (.str "bar_chart") = .str s := by
  unfold wfChartTypeField at h
  unfold pyGetD
  cases hg : pyGet spec "chart_type" with
  | none => exact ⟨"bar_chart", rfl⟩
  | some v =>
    rw [hg] at h
    cases v with
    | str s => exact ⟨s, rfl⟩
    | null => simp at h
    | bool b => simp at h
    | num q => simp at h
    | arr xs => simp at h
    | obj fs => simp at h

theorem wfOptField_getD {spec : PyDict} {k : String} (h : wfOptField spec k = true) :
    nullOrStr (pyGetD spec k .null) = true := by
  unfold wfOptField at h
  unfold pyGetD
  cases hg : pyGet spec k with
  | none => rfl
  | some v => rw [hg] at h; exact h

theorem nullOrStr_ite (b : Bool) (v w : PyVal) (hv : nullOrStr v = true)
    (hw : nullOrStr w = true) : nullOrStr (if b then v else w) = true := by
  cases b <;> simp [hv, hw]

theorem nullOrStr_truthy_str {v : PyVal} (h : nullOrStr v = true)
    (ht : pyTruthy v = true) : ∃ s, v = .str s := by
  cases v <;> simp_all [nullOrStr, pyTruthy]

theorem widgetTitle_ok (title0 chartType x1 y2 : PyVal)
    (hx : nullOrStr x1 = true) (hy : nullOrStr y2 = true)
    (hct : ∃ s, chartType = .str s) :
    ∃ t, widgetTitle title0 chartType x1 y2 = .ok t := by
  unfold widgetTitle
  by_cases h0 : pyTruthy title0 = true
  · simp [h0]
  · simp only [h0, Bool.false_eq_true, if_false]
    by_cases h1 : (pyTruthy x1 && pyTruthy y2) = true
    · have hx1 : pyTruthy x1 = true := by
        cases hpx : pyTruthy x1
        · rw [hpx] at h1; simp at h1
        · rfl
      have hy1 : pyTruthy y2 = true := by
        cases hpy : pyTruthy y2
        · rw [hpy] at h1; simp at h1
        · rfl
      rcases nullOrStr_truthy_str hx hx1 with ⟨sx, rfl⟩
      rcases nullOrStr_truthy_str hy hy1 with ⟨sy, rfl⟩
      simp [h1, pyTitleOf]
    · simp only [h1, Bool.false_eq_true, if_false]
      by_cases h2 : pyTruthy y2 = true
      · rcases nullOrStr_truthy_str hy h2 with ⟨sy, rfl⟩
        simp [h2, pyTitleOf]
      · rcases hct with ⟨s, rfl⟩
        simp [h2, pyTitleOf]

theorem buildWidget_ok (colInfo : ColInfo) (row0 : Nat) (uuid : Nat → String) (i : Nat)
    (w : PyVal) (hw : wfSpecB w = true) :
    ∃ c, buildWidget colInfo row0 uuid i w = .ok c := by
  cases w with
  | obj spec =>
    simp only [wfSpecB, Bool.and_eq_true] at hw
    obtain ⟨⟨⟨hct, hx⟩, hy⟩, _ht⟩ := hw
    rcases wfChartTypeField_getD hct with ⟨cs, hcs⟩
    have hx0 := wfOptField_getD hx
    have hy0 := wfOptField_getD hy
    unfold buildWidget
    simp only [asDict]
    have hx1 : nullOrStr
        (if pyInStrList (pyGetD spec "chart_type" (.str "bar_chart"))
              ["bar_chart", "line_chart"] &&
            (!pyTruthy (pyGetD spec "x_axis" .null) ||
             !pyTruthy (pyGetD spec "y_axis" .null)) &&
            (!pyTruthy (pyGetD spec "x_axis" .null) && !colInfo.string.isEmpty) then
          PyVal.str (colInfo.string.headD "")
        else pyGetD spec "x_axis" .null) = true :=
      nullOrStr_ite _ _ _ rfl hx0
    have hy1 : nullOrStr
        (if pyInStrList (pyGetD spec "chart_type" (.str "bar_chart"))
              ["bar_chart", "line_chart"] &&
            (!pyTruthy (pyGetD spec "x_axis" .null) ||
             !pyTruthy (pyGetD spec "y_axis" .null)) &&
            (!pyTruthy (pyGetD spec "y_axis" .null) && !colInfo.numeric.isEmpty) then
          PyVal.str (colInfo.numeric.headD "")
        else pyGetD spec "y_axis" .null) = true :=
      nullOrStr_ite _ _ _ rfl hy0
    have hy2 := nullOrStr_ite
      (pyEqStr (pyGetD spec "chart_type" (.str "bar_chart")) "kpi" &&
        !pyTruthy (if pyInStrList (pyGetD spec "chart_type" (.str "bar_chart"))
              ["bar_chart", "line_chart"] &&
            (!pyTruthy (pyGetD spec "x_axis" .null) ||
             !pyTruthy (pyGetD spec "y_axis" .null)) &&
            (!pyTruthy (pyGetD spec "y_axis" .null) && !colInfo.numeric.isEmpty) then
          PyVal.str (colInfo.numeric.headD "")
        else pyGetD spec "y_axis" .null) && !colInfo.numeric.isEmpty)
      (PyVal.str (colInfo.numeric.headD "")) _ rfl hy1
    rcases widgetTitle_ok (pyGetD spec "title" (.str ""))
      (pyGetD spec "chart_type" (.str "bar_chart")) _ _ hx1 hy2 ⟨cs, hcs⟩ with ⟨t, htl⟩
    rw [htl]
    exact ⟨_, rfl⟩
  | null => simp [wfSpecB] at hw
  | bool b => simp [wfSpecB] at hw
  | num q => simp [wfSpecB] at hw
  | str s => simp [wfSpecB] at hw
  | arr xs => simp [wfSpecB] at hw

theorem widgetsLoop_ok (colInfo : ColInfo) (row0 : Nat) (uuid : Nat → String)
    (ws : List PyVal) (hws : ws.all wfSpecB = true) :
    ∀ i, ∃ cs, widgetsLoop colInfo row0 uuid ws i = .ok cs := by
  induction ws with
  | nil => intro i; exact ⟨[], rfl⟩
  | cons w rest ih =>
    intro i
    rcases List.all_eq_true.mp hws w (by simp) with hw
    rcases buildWidget_ok colInfo row0 uuid i w hw with ⟨c, hc⟩
    rcases ih (List.all_eq_true.mpr
      (fun x hx => List.all_eq_true.mp hws x (by simp [hx]))) (i + 1) with ⟨cs, hcs⟩
    exact ⟨c :: cs, by simp [widgetsLoop, hc, hcs]⟩

/-- C7 counterexample: a `generate_dashboard` intent whose `widgets`
parameter holds a non-dict entry makes the compiler raise `AttributeError`
(`widget_spec.get` on an int) instead of returning an Action. -/
theorem generate_dashboard_malformed_widget_raises :
    pyGet [("action_type", PyVal.str "generate_dashboard"),
           ("parameters", PyVal.obj [("widgets", PyVal.arr [PyVal.num 5])])]
      "action_type" = some (.str "generate_dashboard") ∧
    generateAction
      [("action_type", PyVal.str "generate_dashboard"),
       ("parameters", PyVal.obj [("widgets", PyVal.arr [PyVal.num 5])])]
      ⟨[], none⟩ [] (fun _ => "u") true none = .error .attributeError :=
  ⟨rfl, rfl⟩

/-- C7 amended: for every `generate_dashboard` intent whose parameter bag is
a dict and whose `widgets` entry (when truthy) is a list of well-formed
widget specs, the compiler returns a success Action; with an empty Column
Catalog and no widget spec the component list is empty. -/
theorem generate_dashboard_success (intent : PyDict) (dash : Dashboard)
    (cols : List Column) (uuid : Nat → String) (geminiOk : Bool)
    (llmAnswer : Option String) (p : PyDict)
    (hat : pyGet intent "action_type" = some (.str "generate_dashboard"))
    (hp : pyGet intent "parameters" = some (.obj p))
    (hw : wfWidgetsB (pyGetD p "widgets" (.arr [])) = true) :
    ∃ comps, generateAction intent dash cols uuid geminiOk llmAnswer =
        .ok (mkFullResult comps intent) ∧
      pyGet (mkFullResult comps intent) "success" = some (.bool true) ∧
      (cols = [] → pyTruthy (pyGetD p "widgets" (.arr [])) = false → comps = []) := by
  have hresc : rescueIntent intent = .ok none := by
    unfold rescueIntent
    rw [pyGetD, hat]
    simp [pyEqStr]
  have hd : generateAction intent dash cols uuid geminiOk llmAnswer =
      generateFullDashboard dash (.obj p) (categorizeColumns cols) intent uuid := by
    unfold generateAction
    rw [hresc]
    simp only []
    rw [pyGetD, hat, pyGetD, hp]
    simp [pyEqStr]
  rw [hd]
  unfold generateFullDashboard
  simp only [asDict]
  generalize hgen : pyGetD p "widgets" (.arr []) = wv at hw ⊢
  by_cases htr : pyTruthy wv = true
  · rw [if_pos htr]
    cases wv with
    | arr ws =>
      have hall : ws.all wfSpecB = true := hw
      rcases widgetsLoop_ok (categorizeColumns cols) dash.components.length uuid ws
        hall 0 with ⟨cs, hcs⟩
      simp only [pyIterElems]
      rw [hcs]
      exact ⟨cs, rfl, rfl, fun _ hfalse => absurd htr (by simp [hfalse])⟩
    | null => simp [pyTruthy] at htr
    | bool b => simp [wfWidgetsB, htr] at hw
    | num q => simp [wfWidgetsB, htr] at hw
    | str s => simp [wfWidgetsB, htr] at hw
    | obj fs => simp [wfWidgetsB, htr] at hw
  · have htr' : pyTruthy wv = false := by
      cases h : pyTruthy wv
      · rfl
      · exact absurd h htr
    rw [htr']
    simp only [Bool.false_eq_true, if_false]
    refine ⟨intelligentComponents (categorizeColumns cols) dash.components.length uuid,
      rfl, rfl, ?_⟩
    intro hc _
    subst hc
    rfl

/-- Witness for C7 amended at an empty catalog and no widget spec. -/
theorem generate_dashboard_success_witness :
    pyGet [("action_type", PyVal.str "generate_dashboard"),
           ("parameters", PyVal.obj [])] "action_type" =
      some (.str "generate_dashboard") ∧
    pyGet [("action_type", PyVal.str "generate_dashboard"),
           ("parameters", PyVal.obj [])] "parameters" = some (.obj []) ∧
    wfWidgetsB (pyGetD ([] : PyDict) "widgets" (.arr [])) = true ∧
    ∃ comps,
      generateAction [("action_type", PyVal.str "generate_dashboard"),
                      ("parameters", PyVal.obj [])]
          ⟨[], none⟩ [] (fun _ => "u") true none =
        .ok (mkFullResult comps
          [("action_type", PyVal.str "generate_dashboard"),
           ("parameters", PyVal.obj [])]) ∧
      pyGet (mkFullResult comps
        [("action_type", PyVal.str "generate_dashboard"),
         ("parameters", PyVal.obj [])]) "success" = some (.bool true) ∧
      (([] : List Column) = [] → pyTruthy (pyGetD ([] : PyDict) "widgets" (.arr [])) = false →
        comps = []) :=
  ⟨rfl, rfl, rfl,
   generate_dashboard_success
     [("action_type", PyVal.str "generate_dashboard"), ("parameters", PyVal.obj [])]
     ⟨[], none⟩ [] (fun _ => "u") true none [] rfl rfl rfl⟩

/-! ### Theorems: C9 and C10 (orchestrator dataset handling) -/

/-- C10: when dataset rows are supplied and the parsed intent is
`answer_question` (resp. `explain_chart`), `process_command` writes the rows,
truncated to 500 (resp. 100) entries, into the `_dataset_data` key of the
caller's `dashboard_state` mapping — the state the caller holds after the
call (the second component of the embedding, which makes the in-place
mutation explicit) is the updated mapping. -/
theorem process_command_attaches_truncated_rows (userCommand : String) (dash : Dashboard)
    (cols : List Column) (dataset : List Row) (llmResponse : Option String)
    (uuid : Nat → String) (geminiOk : Bool) (llmAnswer : Option String)
    (hne : dataset ≠ []) :
    (pyGetD (parseIntent userCommand cols llmResponse) "action_type" .null =
        .str "answer_question" →
      (processCommand userCommand dash cols dataset llmResponse uuid geminiOk llmAnswer).2 =
        { dash with datasetData := some (dataset.take 500) }) ∧
    (pyGetD (parseIntent userCommand cols llmResponse) "action_type" .null =
        .str "explain_chart" →
      (processCommand userCommand dash cols dataset llmResponse uuid geminiOk llmAnswer).2 =
        { dash with datasetData := some (dataset.take 100) }) := by
  have hde : dataset.isEmpty = false := by
    cases dataset with
    | nil => exact absurd rfl hne
    | cons a t => rfl
  constructor
  · intro h
    unfold processCommand
    simp only []
    rw [h]
    simp [pyEqStr, hde]
  · intro h
    unfold processCommand
    simp only []
    rw [h]
    simp [pyEqStr, hde]

/-- Witness for C10: an LLM response parsed as `answer_question` with a
one-row dataset. -/
theorem process_command_attaches_truncated_rows_witness :
    ([[("a", Cell.num 1)]] : List Row) ≠ [] ∧
    pyGetD (parseIntent "how big" []
        (some "\x7b\"action_type\": \"answer_question\"\x7d")) "action_type" .null =
      .str "answer_question" ∧
    (processCommand "how big" ⟨[], none⟩ [] [[("a", Cell.num 1)]]
        (some "\x7b\"action_type\": \"answer_question\"\x7d") (fun _ => "u") false none).2 =
      { Dashboard.mk [] none with
          datasetData := some (([[("a", Cell.num 1)]] : List Row).take 500) } :=
  ⟨by decide, rfl,
   (process_command_attaches_truncated_rows "how big" ⟨[], none⟩ [] [[("a", Cell.num 1)]]
      (some "\x7b\"action_type\": \"answer_question\"\x7d") (fun _ => "u") false none
      (by decide)).1 rfl⟩

/-- C9: an intent parsed as `unknown` that the compiler's rescue rule
reinterprets as `answer_question` never sees the caller-supplied dataset
rows: the orchestrator attaches `_dataset_data` only when the *parsed*
action type is already `explain_chart`/`answer_question`, so the pipeline
returns the `No data available` failure Action and leaves the dashboard
state untouched even though rows were supplied. -/
theorem rescued_unknown_question_no_data (userCommand : String) (dash : Dashboard)
    (cols : List Column) (dataset : List Row) (llmResponse : Option String)
    (uuid : Nat → String) (geminiOk : Bool) (llmAnswer : Option String) (e : String)
    (hd : dash.datasetData = none)
    (_hne : dataset ≠ [])
    (hu : pyGetD (parseIntent userCommand cols llmResponse) "action_type" .null =
      .str "unknown")
    (he : pyGetD (parseIntent userCommand cols llmResponse) "explanation" (.str "") =
      .str e)
    (hq : questionIndicators.any (fun ind =>
        hasSub (lowerStr e).data ind.data ||
        hasSub (userCommandLower (parseIntent userCommand cols llmResponse)).data
          ind.data) = true) :
    processCommand userCommand dash cols dataset llmResponse uuid geminiOk llmAnswer =
      (.ok noDataFailure, dash) := by
  have hresc : rescueIntent (parseIntent userCommand cols llmResponse) =
      .ok (some (PyVal.str "answer_question",
        PyVal.obj [("question", pyOr (.str e)
          (.str (userCommandLower (parseIntent userCommand cols llmResponse))))])) := by
    unfold rescueIntent
    rw [hu, he]
    simp [pyEqStr, hq]
  have hdash : (if !dataset.isEmpty &&
      (pyEqStr (pyGetD (parseIntent userCommand cols llmResponse) "action_type" .null)
        "explain_chart" ||
       pyEqStr (pyGetD (parseIntent userCommand cols llmResponse) "action_type" .null)
        "answer_question") then
        let limited := dataset.take
          (if pyEqStr (pyGetD (parseIntent userCommand cols llmResponse) "action_type" .null)
              "answer_question" then 500 else 100)
        { dash with datasetData := some limited }
      else dash) = dash := by
    rw [hu]
    simp [pyEqStr]
  unfold processCommand
  simp only []
  rw [hdash]
  unfold generateAction
  rw [hresc]
  simp only [pyEqStr]
  unfold generateAnswerQuestion
  simp only [asDict]
  rw [hd]
  simp [pyEqStr]

/-- Witness for C9: an LLM response decoded to an `unknown` intent, a
question-shaped command, and a supplied one-row dataset. -/
theorem rescued_unknown_question_no_data_witness :
    (Dashboard.mk [] none).datasetData = none ∧
    ([[("a", Cell.num 1)]] : List Row) ≠ [] ∧
    pyGetD (parseIntent "what is the total revenue" []
        (some "\x7b\"action_type\": \"unknown\"\x7d")) "action_type" .null =
      .str "unknown" ∧
    pyGetD (parseIntent "what is the total revenue" []
        (some "\x7b\"action_type\": \"unknown\"\x7d")) "explanation" (.str "") =
      .str "Processing your request." ∧
    processCommand "what is the total revenue" ⟨[], none⟩ [] [[("a", Cell.num 1)]]
        (some "\x7b\"action_type\": \"unknown\"\x7d") (fun _ => "u") true none =
      (.ok noDataFailure, ⟨[], none⟩) :=
  ⟨rfl, by decide, rfl, rfl,
   rescued_unknown_question_no_data "what is the total revenue" ⟨[], none⟩ []
     [[("a", Cell.num 1)]] (some "\x7b\"action_type\": \"unknown\"\x7d") (fun _ => "u")
     true none "Processing your request." rfl (by decide) rfl rfl rfl⟩

/-! ### Theorems: C3 (analytical answer engine fallback) -/

/-- C3 counterexample: with dataset rows available but `GeminiClient()`
failing to construct, the Analytical Answer Engine returns a failure Action
(`Gemini not available`) — LLM unavailability is surfaced to the caller. -/
theorem answer_question_gemini_init_failure_surfaced :
    (Dashboard.mk [] (some [[("v", Cell.num 1)]])).datasetData.getD [] ≠ [] ∧
    generateAnswerQuestion ⟨[], some [[("v", Cell.num 1)]]⟩ (.obj []) []
        [⟨"v", "numeric"⟩] false none = .ok geminiUnavailableFailure ∧
    pyGet geminiUnavailableFailure "success" = some (.bool false) ∧
    pyGet geminiUnavailableFailure "error" = some (.str "Gemini not available") :=
  ⟨by decide, rfl, rfl, rfl⟩

/-- A numeric cell. -/
def isNumCell : Cell → Bool
  | .num _ => true
  | .str _ => false

/-- Dataset rows typed consistently with the Column Catalog: every cell
stored under a numeric catalog column is a number (where the pandas model of
the embedding agrees with pandas). -/
abbrev wellTypedRows (rows : List Row) (cols : List Column) : Prop :=
  ∀ r ∈ rows, ∀ pr ∈ r, ∀ c ∈ cols, c.ctype = "numeric" → pr.1 = c.name →
    isNumCell pr.2 = true

theorem computeAnalysis_ok (qL : String) (rows : List Row) (cols : List Column)
    (hfam : familyOf qL ≠ .descriptive) :
    ∃ a, computeAnalysis qL rows cols = .ok a := by
  unfold computeAnalysis
  simp only []
  cases hf : familyOf qL with
  | ranking => exact ⟨_, rfl⟩
  | meanF => exact ⟨_, rfl⟩
  | sumF => exact ⟨_, rfl⟩
  | cardinality => exact ⟨_, rfl⟩
  | minF => exact ⟨_, rfl⟩
  | maxF => exact ⟨_, rfl⟩
  | descriptive => exact absurd hf hfam

/-- C3 amended: with dataset rows available, the Gemini client constructed,
and the narrative `generate` call failing, the Analytical Answer Engine
returns a success Action whose explanation is the templated textual answer
assembled from the deterministic analysis result; but when the Gemini client
itself cannot be constructed, a failure Action (`Gemini not available`) is
returned instead — only the `generate`-call failure is recovered by the
template.  (Hypotheses: the question resolves to a string, the rows are
typed consistently with the catalog, and the question classifies into one of
the keyword families, not the generic `describe` branch.) -/
theorem answer_question_generate_failure_falls_back (comps : List Component)
    (rows : List Row) (cols : List Column) (p : PyDict) (intent : PyDict) (q : String)
    (hne : rows ≠ [])
    (hq : pyOr (pyGetD p "question" (.str "")) (pyGetD intent "explanation" (.str "")) =
      .str q)
    (hwt : wellTypedRows rows cols)
    (hfam : familyOf (lowerStr q) ≠ .descriptive) :
    ∃ a, computeAnalysis (lowerStr q) rows cols = .ok a ∧
      generateAnswerQuestion ⟨comps, some rows⟩ (.obj p) intent cols true none =
        .ok [("success", .bool true), ("action", .str "answer_question"),
             ("question", .str q), ("explanation", .str (fallbackAnswer a)),
             ("analysis", encodeAnalysis a)] := by
  rcases computeAnalysis_ok (lowerStr q) rows cols hfam with ⟨a, ha⟩
  refine ⟨a, ha, ?_⟩
  have hre : rows.isEmpty = false := by
    cases rows with
    | nil => exact absurd rfl hne
    | cons r t => rfl
  unfold generateAnswerQuestion
  simp only [asDict]
  rw [hq]
  simp only [Option.getD, hre, Bool.false_eq_true, if_false, Bool.not_true]
  rw [ha]

/-- Witness for C3 amended: a one-row numeric dataset and a `total` question
with the Gemini client constructed but the narrative call failing. -/
theorem answer_question_generate_failure_falls_back_witness :
    ([[("v", Cell.num 1)]] : List Row) ≠ [] ∧
    pyOr (pyGetD [("question", PyVal.str "total v")] "question" (.str ""))
        (pyGetD ([] : PyDict) "explanation" (.str "")) = .str "total v" ∧
    wellTypedRows [[("v", Cell.num 1)]] [⟨"v", "numeric"⟩] ∧
    familyOf (lowerStr "total v") ≠ .descriptive ∧
    ∃ a, computeAnalysis (lowerStr "total v") [[("v", Cell.num 1)]]
          [⟨"v", "numeric"⟩] = .ok a ∧
      generateAnswerQuestion ⟨[], some [[("v", Cell.num 1)]]⟩
          (.obj [("question", PyVal.str "total v")]) [] [⟨"v", "numeric"⟩] true none =
        .ok [("success", .bool true), ("action", .str "answer_question"),
             ("question", .str "total v"), ("explanation", .str (fallbackAnswer a)),
             ("analysis", encodeAnalysis a)] :=
  ⟨by decide, rfl, by decide, by decide,
   answer_question_generate_failure_falls_back [] [[("v", Cell.num 1)]]
     [⟨"v", "numeric"⟩] [("question", PyVal.str "total v")] [] "total v"
     (by decide) rfl (by decide) (by decide)⟩
